import Mathlib

/-!
Verification development for the PanicSense disaster-text classification
pipeline (`server/python/process.py`).  The Python source is shallowly
embedded: every definition below is a direct translation of the
corresponding Python function, with

  * text represented as `String` / `List Char` (Python `str`),
  * 2-decimal confidence floats represented as natural numbers of
    hundredths (Python computes only exact multiples of 0.01 on the
    modelled paths),
  * half-point disaster scores represented as natural numbers of
    half-points (the scorer adds 1, 1.5 and 2),
  * the metric arithmetic of the feedback subsystem carried out in `ℚ`,
  * external effects (language detection, the remote HTTP classifier,
    the random generator) passed in as explicit oracle parameters.

Python's ASCII-relevant string behaviour (`lower`, `upper`, `isupper`,
`title`, `split`, `strip`, `in`, `count`, `re` word characters) is
reproduced by the `py*` helpers; all concrete inputs used in theorems
are ASCII.
-/

set_option linter.unusedVariables false
set_option maxRecDepth 10000

/-- Contiguous-sublist test on character lists (executable). -/
def charsInfixOf (needle : List Char) : List Char → Bool
  | [] => needle.isEmpty
  | c :: t => needle.isPrefixOf (c :: t) || charsInfixOf needle t

/-- Python `needle in hay` on lowered/raw character lists. -/
def pyContains (needle : String) (hay : List Char) : Bool :=
  charsInfixOf needle.data hay

/-- Python `any(w in hay for w in ws)`. -/
def pyContainsAny (ws : List String) (hay : List Char) : Bool :=
  ws.any (fun w => pyContains w hay)

/-- Python `str.lower()` (ASCII). -/
def pyLower (s : List Char) : List Char :=
  s.map Char.toLower

/-- Python `str.upper()` (ASCII). -/
def pyUpper (s : List Char) : List Char :=
  s.map Char.toUpper

/-- Python `str.strip()`: drop leading and trailing whitespace. -/
def pyStrip (s : List Char) : List Char :=
  ((s.dropWhile Char.isWhitespace).reverse.dropWhile Char.isWhitespace).reverse

/-- Python `str.isupper()` (ASCII): at least one cased character and no
lowercase cased character. -/
def pyIsUpper (s : List Char) : Bool :=
  (!s.any Char.isLower) && s.any Char.isUpper

/-- Python `str.isalpha()` (ASCII): nonempty and all alphabetic. -/
def pyIsAlpha (s : List Char) : Bool :=
  (!s.isEmpty) && s.all Char.isAlpha

/-- Character class of Python's regex `\w` (ASCII): letters, digits, `_`. -/
def isWordChar (c : Char) : Bool :=
  c.isAlphanum || c = '_'

/-- Auxiliary worker for whitespace splitting, carrying the current word
(reversed). -/
def pySplitAux : List Char → List Char → List (List Char)
  | [], acc => if acc.isEmpty then [] else [acc.reverse]
  | c :: cs, acc =>
    if c.isWhitespace then
      if acc.isEmpty then pySplitAux cs [] else acc.reverse :: pySplitAux cs []
    else
      pySplitAux cs (c :: acc)

/-- Python `str.split()` with no argument: split on whitespace runs,
discarding empty fields. -/
def pySplit (s : List Char) : List (List Char) :=
  pySplitAux s []

/-- Auxiliary worker extracting maximal runs of `\w` characters. -/
def pyWordsAux : List Char → List Char → List (List Char)
  | [], acc => if acc.isEmpty then [] else [acc.reverse]
  | c :: cs, acc =>
    if isWordChar c then
      pyWordsAux cs (c :: acc)
    else
      if acc.isEmpty then pyWordsAux cs [] else acc.reverse :: pyWordsAux cs []

/-- Python `re.findall(r'\b\w+\b', s)`: the maximal `\w` runs of `s`. -/
def pyWords (s : List Char) : List (List Char) :=
  pyWordsAux s []

/-- Python `" ".join(ws)`. -/
def joinSpace (ws : List (List Char)) : List Char :=
  match ws with
  | [] => []
  | w :: rest => w ++ (rest.foldr (fun x acc => ' ' :: x ++ acc) [])

/-- Auxiliary worker for non-overlapping substring counting, with fuel. -/
def pyCountAux (needle : List Char) : Nat → List Char → Nat
  | 0, _ => 0
  | _, [] => 0
  | Nat.succ fuel, c :: t =>
    if needle.isPrefixOf (c :: t) && !needle.isEmpty then
      1 + pyCountAux needle fuel ((c :: t).drop needle.length)
    else
      pyCountAux needle fuel t

/-- Python `hay.count(needle)`: leftmost non-overlapping occurrences. -/
def pyCount (needle : String) (hay : List Char) : Nat :=
  pyCountAux needle.data (hay.length + 1) hay

/-- Python `str.title()` (ASCII): uppercase every letter that follows a
non-letter, lowercase the other letters. -/
def pyTitleAux : List Char → Bool → List Char
  | [], _ => []
  | c :: t, prevAlpha =>
    if c.isAlpha then
      (if prevAlpha then c.toLower else c.toUpper) :: pyTitleAux t true
    else
      c :: pyTitleAux t false

/-- Python `str.title()` on a `String`. -/
def pyTitle (s : List Char) : String :=
  ⟨pyTitleAux s false⟩

example : pyTitle "baha ncr".data = "Baha Ncr" := by decide
example : pySplit "  may  sunog ".data = ["may".data, "sunog".data] := by decide
example : pyWords "TULONG! may-sunog".data = ["TULONG".data, "may".data, "sunog".data] := by decide
example : pyCount "haha" "hahahaha grabe".data = 2 := by decide
example : pyIsUpper "MAY SUNOG SA TIPI!".data = true := by decide
example : pyStrip "  x ".data = "x".data := by decide

/-! ### Rule-based sentiment classifier (`_rule_based_sentiment_analysis`) -/

/-- Classification record returned by the rule-based classifier: sentiment
label, confidence in hundredths (Python 2-decimal float times 100), and
the explanation string. -/
structure SentimentOut where
  sentiment : String
  confidence : Nat
  explanation : String
deriving DecidableEq, Repr

/-- Per-category keyword-match scores (`scores` dict of the source, in
label order Panic, Fear/Anxiety, Disbelief, Resilience, Neutral). -/
structure Scores where
  panic : Nat
  fear : Nat
  disbelief : Nat
  resilience : Nat
  neutral : Nat
deriving DecidableEq, Repr

/-- Cue words of the descriptive-statement test (`looks_descriptive`). -/
def descriptive_cue_words : List String :=
  [ "may", "there is", "there was", "nangyari", "happened", "maraming",
    "many", "several", "buildings", "collapsed", "evacuated" ]

/-- Emotional words of the descriptive-statement test (`emotional_words`). -/
def descriptive_emotional_words : List String :=
  [ "nakakatakot", "scary", "afraid", "takot", "worried", "kabado", "help",
    "tulong", "saklolo", "emergency", "bantay", "delikado", "ingat" ]

/-- Emotional markers matched against the uppercased text
(`emotional_markers`). -/
def descriptive_emotional_markers : List String :=
  [ "!!!", "???", "HELP", "TULONG", "OMG", "OH MY GOD" ]

/-- Source condition `looks_descriptive` over the lowercased text. -/
def looks_descriptive (tl : List Char) : Bool :=
  pyContainsAny descriptive_cue_words tl

/-- Source condition `has_emotion`: emotional word in the lowercased text
or emotional marker in the uppercased text. -/
def has_emotion (text : List Char) : Bool :=
  pyContainsAny descriptive_emotional_words (pyLower text) ||
  pyContainsAny descriptive_emotional_markers (pyUpper text)

/-- The `emotion_words` list guarding the short-statement rule (entries
are matched as substrings of the lowercased text, so the all-caps entries
of the source can never match; they are kept verbatim). -/
def short_emotion_words : List String :=
  [ "saklolo", "help", "tulong", "tulungan", "rescue", "emergency",
    "naiipit", "nakulong", "trapped", "HELP", "PLEASE", "SOS",
    "mamamatay", "😱", "😭", "🆘", "💔", "!!!", "???",
    "takot", "scared", "afraid", "kinakabahan", "natatakot", "kabado",
    "worried", "anxious", "fearful", "nanginginig", "nakakatakot",
    "nakakapraning", "makakaligtas kaya", "paano na", "😨", "😰", "😟",
    "hindi makapaniwala", "seriously", "omg", "gosh", "can\x27t believe",
    "what the", "wow", "haha", "baha na naman", "classic", "srsly",
    "as usual", "🤯", "🙄", "😆", "😑", "nice one",
    "kapit", "kaya natin", "malalagpasan", "babangon", "walang susuko",
    "prayers", "pray", "dasal", "tulong tayo", "magtulungan", "sama-sama",
    "matatag", "💪", "🙏", "🌈", "🕊️",
    "namatay", "patay", "nasugatan", "dead", "died", "killed", "injured",
    "walang buhay", "nawawala", "missing", "casualty",
    "iyak", "cry", "trauma", "diyos ko", "oh my god", "lord help",
    "dios mio", "panginoon", "tulungan nyo kami" ]

/-- Keywords of the `sentiment_keywords` dict, Panic entry. -/
def panic_keywords : List String :=
  [ "emergency", "trapped", "dying", "death", "urgent", "critical",
    "saklolo", "naiipit", "mamamatay", "agad", "kritikal", "emerhensya" ]

/-- Keywords of the `sentiment_keywords` dict, Fear/Anxiety entry. -/
def fear_keywords : List String :=
  [ "scared", "afraid", "worried", "fear", "terrified", "anxious",
    "frightened", "takot", "natatakot", "nag-aalala", "kabado",
    "kinakabahan", "nangangamba" ]

/-- Keywords of the `sentiment_keywords` dict, Disbelief entry. -/
def disbelief_keywords : List String :=
  [ "unbelievable", "impossible", "can\x27t believe", "no way",
    "what\x27s happening", "shocked", "hindi kapani-paniwala", "haha",
    "hahaha", "lol", "lmao", "ulol", "gago", "tanga", "wtf", "daw?",
    "raw?", "talaga?", "really?", "seriously?", "seryoso?", "?!", "??",
    "imposible", "di ako makapaniwala", "nagulat", "gulat" ]

/-- Keywords of the `sentiment_keywords` dict, Resilience entry. -/
def resilience_keywords : List String :=
  [ "stay strong", "we will overcome", "resilient", "rebuild",
    "recover", "hope", "lets help", "let\x27s help", "let us help",
    "help them", "malalampasan", "tatayo ulit", "magbabalik",
    "pag-asa", "malalagpasan", "tulungan natin", "tumulong",
    "we can help", "we will help", "tutulong tayo" ]

/-- The `resilience_phrases` list (the source repeats "donate"; the
duplicate is kept because the phrase loop adds 2 per list entry). -/
def resilience_phrases : List String :=
  [ "let\x27s help", "lets help", "help them", "tulungan natin",
    "tumulong tayo", "tulong sa", "tulong para", "tulungan ang",
    "mag-donate", "magbigay ng tulong", "mag volunteer", "magtulungan",
    "donate", "donation", "we can help", "we will help", "tutulong tayo",
    "support", "donate", "fundraising", "fund raising", "relief",
    "relief goods", "pagtulong", "magbayanihan", "bayanihan",
    "volunteer", "volunteers" ]

/-- The `laughter_patterns` list. -/
def laughter_patterns : List String :=
  [ "haha", "hehe", "lol", "lmao", "ulol", "gago", "tanga" ]

/-- The `panic_phrases` list. -/
def panic_phrases : List String :=
  [ "help me", "save me", "trapped", "can\x27t breathe", "tulungan ako",
    "help us", "saklolo", "tulong!", "naipit ako", "hindi makahinga",
    "naiipit", "nakulong", "nasasabit", "naiipit kami",
    "nanganganib ang buhay", "stranded", "nawalan ng bahay",
    "walang makain", "walang tubig", "naputol", "walang kuryente",
    "nawawala", "nawawalang tao", "hinahanap", "hinahanap namin",
    "missing", "casualty", "casualties", "patay", "nasugatan",
    "injured", "nasaktan" ]

/-- The `simple_statements` list forcing Neutral on factual reports. -/
def simple_statements : List String :=
  [ "may sunog", "may baha", "may lindol", "there is a fire",
    "there is a flood", "there is an earthquake" ]

/-- Count of the laughter patterns: the source adds
`text_lower.count(pattern)` for each pattern present. -/
def laughterCount (tl : List Char) : Nat :=
  laughter_patterns.foldl
    (fun n p => if pyContains p tl then n + pyCount p tl else n) 0

/-- Number of list keywords occurring in the text (the keyword-scoring
loop adds one per present keyword). -/
def keywordCount (ks : List String) (tl : List Char) : Nat :=
  (ks.filter (fun k => pyContains k tl)).length

/-- Parse a literal at the head of the input, returning the rest. -/
def parseLit (lit : String) (s : List Char) : Option (List Char) :=
  if lit.data.isPrefixOf s then some (s.drop lit.length) else none

/-- Regex `\s*`: drop any whitespace. -/
def parseWsStar (s : List Char) : List Char :=
  s.dropWhile Char.isWhitespace

/-- Regex `\s+`: drop at least one whitespace character. -/
def parseWsPlus (s : List Char) : Option (List Char) :=
  match s with
  | [] => none
  | c :: t => if c.isWhitespace then some (t.dropWhile Char.isWhitespace) else none

/-- Existence of a position in the input where the given matcher fires
(unanchored regex search, scanning left to right). -/
def scanPos (p : List Char → Bool) : List Char → Bool
  | [] => p []
  | c :: t => p (c :: t) || scanPos p t

/-- Existence of a position, where the matcher also sees the previous
character (used for `\b` word boundaries). -/
def scanPosB (p : Option Char → List Char → Bool) : Option Char → List Char → Bool
  | prev, [] => p prev []
  | prev, c :: t => p prev (c :: t) || scanPosB p (some c) t

/-- Word boundary `\b` before a word character: start of string or a
non-word previous character. -/
def atBoundary (prev : Option Char) : Bool :=
  match prev with
  | none => true
  | some c => !isWordChar c

/-- Word boundary `\b` after a word character: end of string or a
non-word next character. -/
def afterBoundary (rest : List Char) : Bool :=
  match rest with
  | [] => true
  | c :: _ => !isWordChar c

/-- Regex `.*?[!?]{2,}` without DOTALL: two consecutive characters from
`[!?]` occur later on the current line. -/
def hasBangPairSameLine : List Char → Bool
  | [] => false
  | [_] => false
  | a :: b :: t =>
    if a = '\n' then false
    else ((a = '!' || a = '?') && (b = '!' || b = '?')) || hasBangPairSameLine (b :: t)

/-- Regex `.*?(!{2,}|\?{2,})` without DOTALL: two consecutive `!` or two
consecutive `?` occur later on the current line. -/
def hasHomoPairSameLine : List Char → Bool
  | [] => false
  | [_] => false
  | a :: b :: t =>
    if a = '\n' then false
    else ((a = '!' && b = '!') || (a = '?' && b = '?')) || hasHomoPairSameLine (b :: t)

/-- Alternatives of the profanity group
`putang\s*ina|putangina|tangina|putang\s+ina|punyeta|gago|bobo|tang\s+ina|tanginamo|ulol`
(used with flexible whitespace in special cases 1 and 2). -/
def profanityAltsFlex : List (List Char → Option (List Char)) :=
  [ fun s => (parseLit "putang" s).bind (fun r => parseLit "ina" (parseWsStar r)),
    fun s => parseLit "putangina" s,
    fun s => parseLit "tangina" s,
    fun s => (parseLit "putang" s).bind (fun r => (parseWsPlus r).bind (parseLit "ina")),
    fun s => parseLit "punyeta" s,
    fun s => parseLit "gago" s,
    fun s => parseLit "bobo" s,
    fun s => (parseLit "tang" s).bind (fun r => (parseWsPlus r).bind (parseLit "ina")),
    fun s => parseLit "tanginamo" s,
    fun s => parseLit "ulol" s ]

/-- Alternatives of the profanity group of special case 3, whose fourth
and eighth alternatives are the single-space literals `putang ina` and
`tang ina`. -/
def profanityAltsWord : List (List Char → Option (List Char)) :=
  [ fun s => (parseLit "putang" s).bind (fun r => parseLit "ina" (parseWsStar r)),
    fun s => parseLit "putangina" s,
    fun s => parseLit "tangina" s,
    fun s => parseLit "putang ina" s,
    fun s => parseLit "punyeta" s,
    fun s => parseLit "gago" s,
    fun s => parseLit "bobo" s,
    fun s => parseLit "tang ina" s,
    fun s => parseLit "tanginamo" s,
    fun s => parseLit "ulol" s ]

/-- Alternatives of the shorter profanity group of special case 4:
`putang\s*ina|tangina|punyeta|gago|bobo|tang ina`. -/
def profanityAltsShort : List (List Char → Option (List Char)) :=
  [ fun s => (parseLit "putang" s).bind (fun r => parseLit "ina" (parseWsStar r)),
    fun s => parseLit "tangina" s,
    fun s => parseLit "punyeta" s,
    fun s => parseLit "gago" s,
    fun s => parseLit "bobo" s,
    fun s => parseLit "tang ina" s ]

/-- A profanity alternative matches somewhere later on the current line
(regex `.*?(group)` without DOTALL). -/
def profanitySameLine (alts : List (List Char → Option (List Char))) : List Char → Bool
  | [] => false
  | c :: t =>
    if c = '\n' then false
    else alts.any (fun a => (a (c :: t)).isSome) || profanitySameLine alts t

/-- Special case 1: profanity followed by repeated `!`/`?` on the same
line, or repeated `!`/`?` followed by profanity, in the lowercased text. -/
def special_case_1 (tl : List Char) : Bool :=
  scanPos (fun s =>
    profanityAltsFlex.any (fun a =>
      match a s with
      | some r => hasBangPairSameLine r
      | none => false)) tl ||
  scanPos (fun s =>
    match s with
    | a :: b :: t =>
      (a = '!' || a = '?') && (b = '!' || b = '?') && profanitySameLine profanityAltsFlex t
    | _ => false) tl

/-- Special case 2: all-caps profanity
(`PUTANG\s*INA|TANGINA|PUNYETA|GAGO|BOBO`) in the raw text. -/
def special_case_2 (text : List Char) : Bool :=
  scanPos (fun s =>
    ((parseLit "PUTANG" s).bind (fun r => parseLit "INA" (parseWsStar r))).isSome ||
    (parseLit "TANGINA" s).isSome || (parseLit "PUNYETA" s).isSome ||
    (parseLit "GAGO" s).isSome || (parseLit "BOBO" s).isSome) text

/-- Special case 3: word-boundary-delimited profanity in the lowercased
text. -/
def special_case_3 (tl : List Char) : Bool :=
  scanPosB (fun prev s =>
    atBoundary prev &&
    profanityAltsWord.any (fun a =>
      match a s with
      | some r => afterBoundary r
      | none => false)) none tl

/-- Special case 4: a run of five or more capitals followed by repeated
punctuation on the same line, together with boundary-delimited profanity
in the lowercased text. -/
def special_case_4 (text tl : List Char) : Bool :=
  (scanPos (fun s =>
    ((s.take 5).length = 5 && (s.take 5).all Char.isUpper) &&
    hasHomoPairSameLine (s.drop 5)) text) &&
  scanPosB (fun prev s =>
    atBoundary prev &&
    profanityAltsShort.any (fun a =>
      match a s with
      | some r => afterBoundary r
      | none => false)) none tl

/-- Disaster words of the `MAY (SUNOG|...)` emergency template. -/
def may_disaster_templates : List String :=
  [ "MAY SUNOG", "MAY BAHA", "MAY LINDOL", "MAY BAGYO", "MAY ERUPTION",
    "MAY GULO", "MAY BARILAN", "MAY AKSIDENTE" ]

/-- Special case 5: all-caps text matching `MAY (SUNOG|...)` and
containing an exclamation mark. -/
def special_case_5 (text : List Char) : Bool :=
  pyIsUpper text && pyContainsAny may_disaster_templates text && pyContains "!" text

/-- Laughing-emoji plus help-word check. -/
def laugh_emoji_help (text : List Char) : Bool :=
  (text.contains '😂' || text.contains '🤣' || text.contains '😆' || text.contains '😅') &&
  (pyContains "TULONG" (pyUpper text) || pyContains "SAKLOLO" (pyUpper text) ||
   pyContains "HELP" (pyUpper text))

/-- Number of emoji characters (`ord(char) > 127000`). -/
def emojiCount (text : List Char) : Nat :=
  (text.filter (fun c => c.toNat > 127000)).length

/-- Number of purely alphabetic whitespace-words. -/
def alphaWordCount (text : List Char) : Nat :=
  ((pySplit text).filter pyIsAlpha).length

/-- Emoji-overload check: more than 3 emoji and more emoji than half the
alphabetic word count (`emoji_count > word_count / 2` over floats). -/
def emoji_overload (text : List Char) : Bool :=
  emojiCount text > 3 && 2 * emojiCount text > alphaWordCount text

/-- The `HAHA`/`HEHE` plus help-word check. -/
def haha_help (text : List Char) : Bool :=
  (pyContains "HAHA" (pyUpper text) || pyContains "HEHE" (pyUpper text)) &&
  (pyContains "TULONG" (pyUpper text) || pyContains "SAKLOLO" (pyUpper text) ||
   pyContains "HELP" (pyUpper text))

/-- Maximum of the five category scores (`max(scores.values())`). -/
def rbMax (s : Scores) : Nat :=
  max s.panic (max s.fear (max s.disbelief (max s.resilience s.neutral)))

/-- Keyword-scoring pass: one point per present keyword of each of the
four `sentiment_keywords` lists (Neutral has no list). -/
def score_keywords (tl : List Char) : Scores :=
  ⟨keywordCount panic_keywords tl, keywordCount fear_keywords tl,
   keywordCount disbelief_keywords tl, keywordCount resilience_keywords tl, 0⟩

/-- Strong laughing combined with a disaster keyword adds 3 to
Disbelief. -/
def laughter_nudge (tl : List Char) (s : Scores) : Scores :=
  if 2 ≤ laughterCount tl && pyContainsAny [ "sunog", "fire", "baha", "flood" ] tl then
    { s with disbelief := s.disbelief + 3 }
  else s

/-- Resilience-phrase loop: each present phrase adds 2 to Resilience and
decrements a positive Panic score. -/
def resilience_nudge (tl : List Char) (s : Scores) : Scores :=
  resilience_phrases.foldl
    (fun s ph =>
      if pyContains ph tl then
        let s1 := { s with resilience := s.resilience + 2 }
        if 0 < s1.panic then { s1 with panic := s1.panic - 1 } else s1
      else s) s

/-- Bare `tulong` without any resilience phrase adds 2 to Panic. -/
def tulong_nudge (tl : List Char) (s : Scores) : Scores :=
  if pyContains "tulong" tl && !(resilience_phrases.any (fun ph => pyContains ph tl)) then
    { s with panic := s.panic + 2 }
  else s

/-- Simple factual statements force the scores to Neutral 3 when no
category has reached more than 1 at this point. -/
def simple_statement_override (tl : List Char) (s : Scores) : Scores :=
  if simple_statements.any (fun st => pyContains st tl) then
    if rbMax s ≤ 1 then ⟨0, 0, 0, 0, 3⟩ else s
  else s

/-- Panic-phrase loop: each present phrase adds 2 to Panic. -/
def panic_phrase_nudge (tl : List Char) (s : Scores) : Scores :=
  panic_phrases.foldl
    (fun s ph => if pyContains ph tl then { s with panic := s.panic + 2 } else s) s

/-- Window of five words before and after word `i`
(`words[max(0,i-5):min(len(words),i+6)]`, joined with spaces). -/
def exclamationWindow (ws : List (List Char)) (i : Nat) : List Char :=
  joinSpace ((ws.drop (i - 5)).take (min ws.length (i + 6) - (i - 5)))

/-- Window of five words before and including word `i`
(`words[max(0,i-5):min(len(words),i+1)]`, joined with spaces). -/
def questionWindow (ws : List (List Char)) (i : Nat) : List Char :=
  joinSpace ((ws.drop (i - 5)).take (min ws.length (i + 1) - (i - 5)))

/-- Victim vocabulary of the exclamation-context analysis. -/
def excl_victim_words : List String :=
  [ "help", "emergency", "saklolo", "trapped", "tulong", "danger" ]

/-- Helper vocabulary of the exclamation-context analysis. -/
def excl_helper_words : List String :=
  [ "donate", "let\x27s help", "support", "tulungan natin", "assist" ]

/-- Shock vocabulary of the exclamation-context analysis. -/
def excl_shock_words : List String :=
  [ "what", "can\x27t believe", "ano", "bakit", "hindi kapani-paniwala" ]

/-- Exclamation-context pass: windows around words containing `!` nudge
Panic, Resilience or Disbelief. -/
def exclamation_nudge (text tl : List Char) (s : Scores) : Scores :=
  if pyContains "!" text then
    let ws := pySplit tl
    let phrases := (ws.enum.filter (fun p => pyContains "!" p.2)).map
      (fun p => exclamationWindow ws p.1)
    phrases.foldl
      (fun s ph =>
        if pyContainsAny excl_victim_words ph then
          if resilience_phrases.any (fun rp => pyContains rp ph) then s
          else { s with panic := s.panic + 1 }
        else if pyContainsAny excl_helper_words ph then
          { s with resilience := s.resilience + 1 }
        else if pyContainsAny excl_shock_words ph then
          { s with disbelief := s.disbelief + 1 }
        else s) s
  else s

/-- Question vocabulary: status-of-disaster question words. -/
def ques_where_words : List String :=
  [ "nasaan", "where", "kamusta", "how", "when", "kailan", "ilang", "how many" ]

/-- Question vocabulary: victim words. -/
def ques_victim_words : List String :=
  [ "victim", "dead", "casualties", "stranded", "missing" ]

/-- Question vocabulary: disbelief question words. -/
def ques_why_words : List String :=
  [ "bakit", "paano", "why", "how could", "paanong" ]

/-- Question-context pass: windows ending at words containing `?` nudge
Fear/Anxiety and Disbelief. -/
def question_nudge (text tl : List Char) (s : Scores) : Scores :=
  if pyContains "?" text then
    let ws := pySplit tl
    let phrases := (ws.enum.filter (fun p => pyContains "?" p.2)).map
      (fun p => questionWindow ws p.1)
    phrases.foldl
      (fun s ph =>
        let s1 :=
          if pyContainsAny ques_where_words ph && pyContainsAny ques_victim_words ph then
            { s with fear := s.fear + 1 }
          else s
        if pyContainsAny ques_why_words ph then
          { s1 with disbelief := s1.disbelief + 1 }
        else s1) s
  else s

/-- All-caps pass vocabulary: emergency words matched by list
membership against the lowercased all-caps words. -/
def caps_panic_words : List String :=
  [ "emergency", "tulong", "saklolo", "help", "rescue" ]

/-- All-caps pass vocabulary: helping words matched as substrings of the
joined all-caps words. -/
def caps_help_words : List String :=
  [ "donate", "tulungan", "help", "lets", "tumulong" ]

/-- All-caps context pass: two or more all-caps words of length above 2
nudge Panic or Resilience depending on vocabulary and the presence of
resilience phrases. -/
def allcaps_nudge (text tl : List Char) (s : Scores) : Scores :=
  let capsWords := ((pySplit text).filter (fun w => pyIsUpper w && 2 < w.length)).map pyLower
  if 1 < capsWords.length then
    if caps_panic_words.any (fun w => capsWords.contains w.data) then
      if resilience_phrases.any (fun ph => pyContains ph tl) then s
      else { s with panic := s.panic + 1 }
    else if caps_help_words.any (fun w => pyContains w (joinSpace capsWords)) then
      if resilience_phrases.any (fun ph => pyContains ph tl) then
        { s with resilience := s.resilience + 1 }
      else s
    else s
  else s

/-- Final scores of the rule-based classifier: keyword scoring followed
by the contextual nudge passes, in source order. -/
def rb_scores (text : List Char) : Scores :=
  let tl := pyLower text
  let s1 := score_keywords tl
  let s2 := laughter_nudge tl s1
  let s3 := resilience_nudge tl s2
  let s4 := tulong_nudge tl s3
  let s5 := simple_statement_override tl s4
  let s6 := panic_phrase_nudge tl s5
  let s7 := exclamation_nudge text tl s6
  let s8 := question_nudge text tl s7
  allcaps_nudge text tl s8

/-- Sentiments tied at the maximum score, in label order
(`top_sentiments`). -/
def topSentiments (s : Scores) (m : Nat) : List String :=
  (([ ("Panic", s.panic), ("Fear/Anxiety", s.fear), ("Disbelief", s.disbelief),
      ("Resilience", s.resilience), ("Neutral", s.neutral) ] : List (String × Nat)).filter
    (fun p => p.2 == m)).map (fun p => p.1)

/-- Tie-break priority loop over
`["Panic", "Fear/Anxiety", "Resilience", "Disbelief", "Neutral"]`; the
source leaves `sentiment` unbound when nothing matches and later falls
back to Neutral. -/
def priorityPick (tops : List String) : String :=
  (([ "Panic", "Fear/Anxiety", "Resilience", "Disbelief", "Neutral" ] : List String).find?
    (fun x => tops.contains x)).getD "Neutral"

/-- Explanation attached to the score-based result. -/
def rbExplanation (sentiment : String) (laughter : Nat) : String :=
  if sentiment = "Panic" then
    "The text shows signs of urgent distress or calls for immediate help, indicating panic."
  else if sentiment = "Fear/Anxiety" then
    "The message expresses worry, concern or apprehension about the situation."
  else if sentiment = "Disbelief" then
    if 2 ≤ laughter then
      "The content contains laughter patterns and mockery, indicating disbelief or skepticism about the reported situation."
    else
      "The content shows shock, surprise or inability to comprehend the situation."
  else if sentiment = "Resilience" then
    "The text demonstrates community support, offers of help, or positive action toward recovery."
  else
    "The text appears informational or descriptive without strong emotional indicators."

/-- Score-based exit of the classifier: confidence
`0.70 + 0.03 * max_score` rounded to two decimals, represented in
hundredths. -/
def rbFinish (sentiment : String) (m laughter : Nat) : SentimentOut :=
  ⟨sentiment, 70 + 3 * m, rbExplanation sentiment laughter⟩

/-- The rule-based fallback classifier
(`_rule_based_sentiment_analysis(text, language)`; the language argument
is unused by the source body and kept for signature fidelity). -/
def rule_based_sentiment_analysis (text language : String) : SentimentOut :=
  let t := text.data
  let tl := pyLower t
  if looks_descriptive tl && !has_emotion t then
    ⟨"Neutral", 92, "Descriptive statement without emotional markers. These types of informative reports should be classified as Neutral regardless of disaster content."⟩
  else if (pySplit tl).length ≤ 3 && !(short_emotion_words.any (fun w => pyContains w tl)) then
    ⟨"Neutral", 90, "Simple statement without emotional indicators - analyzing exactly what\x27s in the text."⟩
  else if special_case_1 tl then
    ⟨"Panic", 97, "Ang paggamit ng malakas na salita kasama ng maraming tandang padamdam ay nagpapahiwatig ng matinding pagkabahala o takot."⟩
  else if special_case_2 t then
    ⟨"Panic", 96, "Ang paggamit ng malalaking titik sa mga malakas na salita ay nagpapahiwatig ng matinding pagkabahala o takot."⟩
  else if special_case_3 tl then
    ⟨"Panic", 92, "Ang teksto ay naglalaman ng matinding pagkapoot o pagkabahala na karaniwang ginagamit sa mga emergency situations sa Filipino context."⟩
  else if special_case_4 t tl then
    ⟨"Panic", 95, "Ang paggamit ng malalaking titik, profanity, at maraming tandang padamdam ay nagpapahiwatig ng matinding takot o pagkabahala."⟩
  else if special_case_5 t then
    ⟨"Panic", 94, "Mga emergency alertong Pilipino sa malalaking titik na may tandang padamdam, nagpapahiwatig ng agarang panganib o matinding takot."⟩
  else if laugh_emoji_help t then
    ⟨"Disbelief", 95, "The laughing emoji combined with words like \x27TULONG\x27 suggests disbelief or humor, not actual distress. This is a common pattern in Filipino social media to express sarcasm or jokes."⟩
  else if emoji_overload t then
    ⟨"Disbelief", 90, "The excessive use of emojis suggests this is likely expressing mockery or sarcasm rather than genuine information or distress."⟩
  else if haha_help t then
    ⟨"Disbelief", 92, "The combination of laughter (\x27HAHA\x27) and words like \x27TULONG\x27 indicates this is expressing humor or disbelief, not actual panic. This is a common Filipino pattern for jokes or sarcasm."⟩
  else
    let s := rb_scores t
    let m := rbMax s
    if m = 0 then
      ⟨"Neutral", 83, "No clear sentiment indicators found in text"⟩
    else
      let tops := topSentiments s m
      let laughter := laughterCount tl
      if tops.length = 1 then
        rbFinish (tops.headD "Neutral") m laughter
      else if tops.contains "Neutral" && (pySplit tl).length < 7 then
        rbFinish "Neutral" m laughter
      else if emoji_overload t && tops.contains "Disbelief" then
        ⟨"Disbelief", 92, "Multiple emojis indicate sarcasm or mockery rather than genuine distress."⟩
      else if pyContainsAny [ "please help", "help please", "need help", "kailangan ng tulong", "pakitulong", "pakigalaw po", "asap" ] tl && tops.contains "Panic" then
        ⟨"Panic", 95, "Text contains explicit requests for help indicating urgent distress."⟩
      else if pyContainsAny [ "news", "bulletin", "flash report", "balita", "ulat", "breaking news", "headline" ] tl && tops.contains "Neutral" then
        ⟨"Neutral", 90, "Text uses news reporting style with factual information, not expressing personal emotions."⟩
      else
        rbFinish (priorityPick tops) m laughter

/-! ### Disaster-type extractor (`extract_disaster_type`) -/

/-- Suffix test on character lists. -/
def charsSuffixOf (needle hay : List Char) : Bool :=
  needle.reverse.isPrefixOf hay.reverse

/-- Full-word test of the extractor: `f" {keyword} " in f" {text} "`,
or prefix `f"{keyword} "`, or suffix `f" {keyword}"`, or the whole text. -/
def dd_full_word (k : String) (tl : List Char) : Bool :=
  charsInfixOf (' ' :: (k.data ++ [ ' ' ])) (' ' :: (tl ++ [ ' ' ])) ||
  (k.data ++ [ ' ' ]).isPrefixOf tl ||
  charsSuffixOf (' ' :: k.data) tl ||
  tl == k.data

/-- Keyword pass of the extractor: 2 points (4 half-points) for a
full-word hit, 1 point (2 half-points) for a substring hit. -/
def dd_keyword_score (ks : List String) (tl : List Char) : Nat :=
  ks.foldl
    (fun n k =>
      if pyContains k tl then (if dd_full_word k tl then n + 4 else n + 2) else n) 0

/-- Context pass of the extractor: 1.5 points (3 half-points) per present
indicator. -/
def dd_context_score (ctx : List String) (tl : List Char) : Nat :=
  3 * (ctx.filter (fun c => pyContains c tl)).length

/-- Keywords of the `disaster_types` dict, Earthquake entry (the source
lists "magnitude" twice; the duplicate is kept since the loop scores per
list entry). -/
def earthquake_keywords : List String :=
  [ "earthquake", "quake", "tremor", "seismic", "lindol", "magnitude",
    "aftershock", "shaking", "lumindol", "pagyanig", "paglindol",
    "ground shaking", "magnitude" ]

/-- Keywords of the `disaster_types` dict, Flood entry. -/
def flood_keywords : List String :=
  [ "flood", "flooding", "inundation", "baha", "tubig", "binaha",
    "flash flood", "rising water", "bumabaha", "nagbaha",
    "high water level", "water rising", "overflowing", "pagbaha",
    "underwater", "submerged", "nabahaan" ]

/-- Keywords of the `disaster_types` dict, Typhoon entry. -/
def typhoon_keywords : List String :=
  [ "typhoon", "storm", "cyclone", "hurricane", "bagyo", "super typhoon",
    "habagat", "ulan", "buhos", "storm surge", "malakas na hangin",
    "heavy rain", "signal no", "strong wind", "malakas na ulan",
    "flood warning", "storm warning", "evacuate due to storm",
    "matinding ulan" ]

/-- Keywords of the `disaster_types` dict, Fire entry (duplicates
"burning" and "nagliliyab" kept verbatim). -/
def fire_keywords : List String :=
  [ "fire", "blaze", "burning", "sunog", "nasusunog", "nasunog",
    "nagliliyab", "flame", "apoy", "burning building", "burning house",
    "tulong sunog", "house fire", "fire truck", "fire fighter",
    "building fire", "fire alarm", "burning", "nagliliyab", "sinusunog",
    "smoke", "usok" ]

/-- Keywords of the `disaster_types` dict, Volcanic Eruptions entry. -/
def volcanic_keywords : List String :=
  [ "volcano", "eruption", "lava", "ash", "bulkan", "ashfall", "magma",
    "volcanic", "bulkang", "active volcano", "phivolcs alert", "taal",
    "mayon", "pinatubo", "volcanic activity", "phivolcs", "volcanic ash",
    "evacuate volcano", "erupting", "erupted", "abo ng bulkan" ]

/-- Keywords of the `disaster_types` dict, Landslide entry. -/
def landslide_keywords : List String :=
  [ "landslide", "mudslide", "avalanche", "guho", "pagguho",
    "pagguho ng lupa", "collapsed", "erosion", "land collapse",
    "soil erosion", "rock slide", "debris flow", "mountainside",
    "nagkaroong ng guho", "rumble", "bangin", "bumagsak na lupa" ]

/-- Context indicators, Earthquake entry. -/
def earthquake_context : List String :=
  [ "shaking", "ground moved", "buildings collapsed", "magnitude",
    "richter scale", "fell down", "trembling", "evacuate building",
    "underneath rubble", "trapped" ]

/-- Context indicators, Flood entry. -/
def flood_context : List String :=
  [ "water level", "rising water", "underwater", "submerged", "evacuate",
    "rescue boat", "stranded", "high water", "knee deep", "waist deep" ]

/-- Context indicators, Typhoon entry. -/
def typhoon_context : List String :=
  [ "strong winds", "heavy rain", "evacuation center", "storm signal",
    "stranded", "cancelled flights", "damaged roof", "blown away",
    "flooding due to", "trees fell" ]

/-- Context indicators, Fire entry. -/
def fire_context : List String :=
  [ "smoke", "evacuate building", "trapped inside", "firefighter",
    "fire truck", "burning", "call 911", "spread to", "emergency",
    "burning smell" ]

/-- Context indicators, Volcanic Eruptions entry. -/
def volcanic_context : List String :=
  [ "alert level", "evacuate area", "danger zone", "eruption warning",
    "exclusion zone", "kilometer radius", "volcanic activity",
    "ash covered", "masks", "respiratory" ]

/-- Context indicators, Landslide entry. -/
def landslide_context : List String :=
  [ "collapsed", "blocked road", "buried", "fell", "slid down",
    "mountain slope", "after heavy rain", "buried homes", "rescue team",
    "clearing operation" ]

/-- The `evacuate`-plus-`alert` co-occurrence bonus (1 point, i.e. 2
half-points) applied to a category whose keyword list has a hit. -/
def dd_evac_alert (ks : List String) (tl : List Char) : Nat :=
  if pyContains "evacuate" tl && pyContains "alert" tl && pyContainsAny ks tl then 2 else 0

/-- Earthquake score in half-points. -/
def dd_score_earthquake (tl : List Char) : Nat :=
  dd_keyword_score earthquake_keywords tl + dd_context_score earthquake_context tl +
  (if pyContains "building" tl && pyContains "collapse" tl then 4 else 0)

/-- Flood score in half-points. -/
def dd_score_flood (tl : List Char) : Nat :=
  dd_keyword_score flood_keywords tl + dd_context_score flood_context tl +
  (if pyContains "water" tl && pyContains "rising" tl then 4 else 0) +
  dd_evac_alert flood_keywords tl

/-- Typhoon score in half-points. -/
def dd_score_typhoon (tl : List Char) : Nat :=
  dd_keyword_score typhoon_keywords tl + dd_context_score typhoon_context tl +
  (if pyContains "strong" tl && pyContains "wind" tl then 4 else 0) +
  (if pyContains "heavy" tl && pyContains "rain" tl then 3 else 0) +
  dd_evac_alert typhoon_keywords tl

/-- Fire score in half-points. -/
def dd_score_fire (tl : List Char) : Nat :=
  dd_keyword_score fire_keywords tl + dd_context_score fire_context tl +
  dd_evac_alert fire_keywords tl

/-- Volcanic Eruptions score in half-points. -/
def dd_score_volcanic (tl : List Char) : Nat :=
  dd_keyword_score volcanic_keywords tl + dd_context_score volcanic_context tl +
  (if pyContains "ash" tl && pyContains "fall" tl then 4 else 0) +
  dd_evac_alert volcanic_keywords tl

/-- Landslide score in half-points. -/
def dd_score_landslide (tl : List Char) : Nat :=
  dd_keyword_score landslide_keywords tl + dd_context_score landslide_context tl

/-- The scores dict of the extractor, in insertion order. -/
def dd_pairs (tl : List Char) : List (String × Nat) :=
  [ ("Earthquake", dd_score_earthquake tl), ("Flood", dd_score_flood tl),
    ("Typhoon", dd_score_typhoon tl), ("Fire", dd_score_fire tl),
    ("Volcanic Eruptions", dd_score_volcanic tl),
    ("Landslide", dd_score_landslide tl) ]

/-- Maximum category score in half-points (`max(scores.values())`). -/
def dd_max (tl : List Char) : Nat :=
  ((dd_pairs tl).map (fun p => p.2)).foldr max 0

/-- Philippine tie-break priority order of the extractor. -/
def dd_priority : List String :=
  [ "Typhoon", "Flood", "Earthquake", "Volcanic Eruptions", "Fire", "Landslide" ]

/-- The disaster-type extractor (`extract_disaster_type`): empty input
gives "Not Specified", maximum score below 1 point (2 half-points) gives
"UNKNOWN", otherwise the top-scoring category with priority tie-break. -/
def extract_disaster_type (text : String) : String :=
  if (pyStrip text.data).isEmpty then "Not Specified"
  else
    let tl := pyLower text.data
    let m := dd_max tl
    if m < 2 then "UNKNOWN"
    else
      let tops := ((dd_pairs tl).filter (fun p => p.2 == m)).map (fun p => p.1)
      if tops.length = 1 then tops.headD "UNKNOWN"
      else
        match dd_priority.find? (fun d => tops.contains d) with
        | some d => d
        | none => tops.headD "UNKNOWN"

/-- Score of a named category, read off the scores dict. -/
def dd_lookup (tl : List Char) (d : String) : Nat :=
  (((dd_pairs tl).find? (fun p => p.1 == d)).map (fun p => p.2)).getD 0

/-- Specification-side selector for the extractor, following the spec
text: empty input gives "Not Specified"; a maximum score below 1 gives
"UNKNOWN"; otherwise the first category of the fixed priority order
[Typhoon, Flood, Earthquake, Volcanic Eruptions, Fire, Landslide] whose
score equals the maximum. -/
def disaster_type_spec (text : String) : String :=
  if (pyStrip text.data).isEmpty then "Not Specified"
  else
    let tl := pyLower text.data
    let m := dd_max tl
    if m < 2 then "UNKNOWN"
    else (dd_priority.find? (fun d => dd_lookup tl d == m)).getD "UNKNOWN"

/-! ### Location extractor (`extract_location`) -/

/-- Leftmost-position search returning the first successful parse. -/
def scanOpt (tryAt : List Char → Option α) : List Char → Option α
  | [] => tryAt []
  | c :: t =>
    match tryAt (c :: t) with
    | some r => some r
    | none => scanOpt tryAt t

/-- Leftmost-position search that also provides the previous character
(for word boundaries). -/
def scanOptB (tryAt : Option Char → List Char → Option α) :
    Option Char → List Char → Option α
  | prev, [] => tryAt prev []
  | prev, c :: t =>
    match tryAt prev (c :: t) with
    | some r => some r
    | none => scanOptB tryAt (some c) t

/-- Matcher of `MAY\s+\w+\s+SA\s+([A-Z]+)` at the current position. -/
def upperPat1At (s : List Char) : Option (List Char) :=
  (parseLit "MAY" s).bind (fun r1 =>
    (parseWsPlus r1).bind (fun r2 =>
      let w := r2.takeWhile isWordChar
      if w.isEmpty then none
      else
        (parseWsPlus (r2.drop w.length)).bind (fun r3 =>
          (parseLit "SA" r3).bind (fun r4 =>
            (parseWsPlus r4).bind (fun r5 =>
              let caps := r5.takeWhile Char.isUpper
              if caps.isEmpty then none else some caps)))))

/-- Matcher of `SA\s+([A-Z]+)` at the current position. -/
def upperPat2At (s : List Char) : Option (List Char) :=
  (parseLit "SA" s).bind (fun r1 =>
    (parseWsPlus r1).bind (fun r2 =>
      let caps := r2.takeWhile Char.isUpper
      if caps.isEmpty then none else some caps))

/-- First capture of an uppercase emergency pattern turned into a
Title-Case location when longer than one character. -/
def upperCaptureResult (cap : List Char) : Option String :=
  let location := pyStrip cap
  if 1 < location.length then some (pyTitle location) else none

/-- Stage (a): all-caps emergency templates, only on `isupper` text. -/
def stage_upper (text : List Char) : Option String :=
  if pyIsUpper text then
    match (scanOpt upperPat1At text).bind upperCaptureResult with
    | some r => some r
    | none => (scanOpt upperPat2At text).bind upperCaptureResult
  else none

/-- Character class `[\w\s]` of the lazy location captures. -/
def isWordOrSpace (c : Char) : Bool :=
  isWordChar c || c.isWhitespace

/-- Terminator class `[\!\.\?]`. -/
def isEndPunct (c : Char) : Bool :=
  c = '!' || c = '.' || c = '?'

/-- Matcher of `([\w\s]+?)[\!\.\?]` at the current position: the maximal
word-or-space run, nonempty and followed by an end punctuation mark. -/
def lazyWordSpacePunct (s : List Char) : Option (List Char) :=
  let run := s.takeWhile isWordOrSpace
  if run.isEmpty then none
  else
    match s.drop run.length with
    | c :: _ => if isEndPunct c then some run else none
    | [] => none

/-- Matcher of `lit([a-zA-Z]+)` at the current position. -/
def litLettersAt (lit : String) (s : List Char) : Option (List Char) :=
  (parseLit lit s).bind (fun r =>
    let cap := r.takeWhile Char.isAlpha
    if cap.isEmpty then none else some cap)

/-- Matcher of `lit([\w\s]+?)[\!\.\?]` at the current position. -/
def litLazyPunctAt (lit : String) (s : List Char) : Option (List Char) :=
  (parseLit lit s).bind lazyWordSpacePunct

/-- The eleven `emergency_location_patterns`, in source order. -/
def emergency_location_patterns : List (List Char → Option (List Char)) :=
  [ litLettersAt "may sunog sa ", litLettersAt "may baha sa ",
    litLettersAt "may lindol sa ", litLettersAt "may bagyo sa ",
    litLettersAt "may landslide sa ", litLettersAt "nasunugan sa ",
    litLettersAt "binaha sa ", litLettersAt "may eruption sa ",
    litLazyPunctAt "may sunog sa ", litLazyPunctAt "may baha sa ",
    litLazyPunctAt "may lindol sa " ]

/-- Stage (b): lowercase emergency patterns; each pattern's first capture
is returned Title-Cased when longer than one character, otherwise the
next pattern is tried. -/
def stage_emergency (tl : List Char) : Option String :=
  emergency_location_patterns.findSome? (fun pat =>
    match scanOpt pat tl with
    | some cap =>
      let location := pyStrip cap
      if 1 < location.length then some (pyTitle location) else none
    | none => none)

/-- Matcher of `\bsa\s+([\w\s]+?)[\!\.\?]` at the current position; the
lazy capture begins after the greedy `\s+`, backing off one whitespace
character when the run ends directly at the punctuation. -/
def saPatternAt (prev : Option Char) (s : List Char) : Option (List Char) :=
  if atBoundary prev then
    (parseLit "sa" s).bind (fun rest =>
      match rest with
      | c :: _ =>
        if c.isWhitespace then
          let classRun := rest.takeWhile isWordOrSpace
          let k := classRun.length
          match rest.drop k with
          | p :: _ =>
            if isEndPunct p && 2 ≤ k then
              let j := min (rest.takeWhile Char.isWhitespace).length (k - 1)
              some ((rest.take k).drop j)
            else none
          | [] => none
        else none
      | [] => none)
  else none

/-- Stage (c): the generic `sa <place>` pattern. -/
def stage_sa (tl : List Char) : Option String :=
  match scanOptB saPatternAt none tl with
  | some cap =>
    let location := pyStrip cap
    if 1 < location.length then some (pyTitle location) else none
  | none => none

/-- The `misspelling_map` of the extractor, in dict insertion order. -/
def misspelling_map : List (String × String) :=
  [ ("maynila", "manila"), ("mnl", "manila"), ("mnla", "manila"),
    ("manilla", "manila"), ("kyusi", "quezon city"), ("qc", "quezon city"),
    ("q.c", "quezon city"), ("quiapo", "manila"), ("makate", "makati"),
    ("makati city", "makati"), ("bgc", "taguig"), ("taguig city", "taguig"),
    ("m.manila", "metro manila"), ("metromanila", "metro manila"),
    ("calocan", "caloocan"), ("kalookan", "caloocan"), ("kalokan", "caloocan"),
    ("caloocan city", "caloocan"), ("pasay city", "pasay"),
    ("muntinlupa city", "muntinlupa"), ("valenzuela city", "valenzuela"),
    ("las pinas", "las piñas"), ("laspinas", "las piñas"),
    ("laspiñas", "las piñas"), ("marikina city", "marikina"),
    ("paranaque", "parañaque"), ("paranaque city", "parañaque"),
    ("parañaque city", "parañaque"), ("sampaloc", "manila"),
    ("intramuros", "manila"), ("pandacan", "manila"), ("paco", "manila"),
    ("baguio city", "baguio"), ("cebu city", "cebu"), ("davao city", "davao"),
    ("iloilo city", "iloilo"), ("cdo", "cagayan de oro"),
    ("cdeo", "cagayan de oro"), ("zamboanga city", "zamboanga"),
    ("bacolod city", "bacolod"), ("gen san", "general santos"),
    ("gensan", "general santos"), ("tacloban city", "tacloban"),
    ("legazpi", "legaspi"), ("legaspi city", "legaspi"),
    ("legazpi city", "legaspi"), ("naga city", "naga"),
    ("batangas city", "batangas"), ("cavite city", "cavite"),
    ("dagupan city", "dagupan"), ("laoag city", "laoag"),
    ("lucena city", "lucena"), ("tagaytay city", "tagaytay"),
    ("iligan city", "iligan"), ("cotabato city", "cotabato"),
    ("butuan city", "butuan"), ("cainta", "rizal"), ("antipolo", "rizal"),
    ("taytay", "rizal"), ("bayan ng taytay", "rizal"),
    ("zambales province", "zambales"), ("pangasinan province", "pangasinan"),
    ("benguet province", "benguet"), ("camarines sur", "camarines"),
    ("camarines norte", "camarines"), ("north cotabato", "cotabato"),
    ("maguindanao del norte", "maguindanao"),
    ("maguindanao del sur", "maguindanao") ]

/-- The `ph_locations` gazetteer with the `provinces` list appended, in
source order (duplicates such as "Tipi" and "Cebu" kept verbatim). -/
def ph_locations : List String :=
  [ "NCR", "Metro Manila", "CAR", "Cordillera", "Ilocos", "Cagayan Valley",
    "Central Luzon", "CALABARZON", "MIMAROPA", "Bicol", "Western Visayas",
    "Central Visayas", "Eastern Visayas", "Zamboanga Peninsula",
    "Northern Mindanao", "Davao Region", "SOCCSKSARGEN", "Caraga", "BARMM",
    "Bangsamoro",
    "Manila", "Quezon City", "Makati", "Taguig", "Pasig", "Mandaluyong",
    "Pasay", "Caloocan", "Parañaque", "Las Piñas", "Muntinlupa", "Marikina",
    "Valenzuela", "Malabon", "Navotas", "San Juan", "Pateros",
    "Tondo", "Sampaloc", "Malate", "Paco", "Intramuros", "Quiapo", "Binondo",
    "Ermita", "San Nicolas", "San Miguel", "Santa Cruz", "Santa Mesa",
    "Pandacan", "Port Area", "Sta. Ana", "Tipi", "TIPI", "Tipas",
    "Tipas Taguig", "Napindan",
    "Baguio", "Cebu", "Davao", "Iloilo", "Cagayan de Oro", "Zamboanga",
    "Bacolod", "General Santos", "Tacloban", "Angeles", "Olongapo", "Naga",
    "Butuan", "Cotabato", "Dagupan", "Iligan", "Laoag", "Legazpi", "Lucena",
    "Puerto Princesa", "Roxas", "Tipi", "Tagaytay", "Tagbilaran", "Tarlac",
    "Tuguegarao", "Vigan", "Cabanatuan", "Bago", "Batangas City", "Bayawan",
    "Calbayog", "Cauayan", "Dapitan", "Digos", "Dipolog", "Dumaguete",
    "El Salvador", "Gingoog", "Himamaylan", "Iriga", "Kabankalan",
    "Kidapawan", "La Carlota", "Lamitan", "Lipa", "Maasin", "Malaybalay",
    "Malolos", "Mati", "Meycauayan", "Oroquieta", "Ozamiz", "Pagadian",
    "Palayan", "Panabo", "Sorsogon City", "Surigao City", "Tabuk", "Tandag",
    "Tangub", "Tanjay", "Urdaneta", "Valencia", "Zamboanga City",
    "Abra", "Agusan del Norte", "Agusan del Sur", "Aklan", "Albay",
    "Antique", "Apayao", "Aurora", "Basilan", "Bataan", "Batanes",
    "Batangas", "Benguet", "Biliran", "Bohol", "Bukidnon", "Bulacan",
    "Cagayan", "Camarines Norte", "Camarines Sur", "Camiguin", "Capiz",
    "Catanduanes", "Cavite", "Cebu", "Cotabato", "Davao de Oro",
    "Davao del Norte", "Davao del Sur", "Davao Oriental", "Dinagat Islands",
    "Eastern Samar", "Guimaras", "Ifugao", "Ilocos Norte", "Ilocos Sur",
    "Iloilo", "Isabela", "Kalinga", "La Union", "Laguna",
    "Lanao del Norte", "Lanao del Sur", "Leyte", "Maguindanao",
    "Marinduque", "Masbate", "Misamis Occidental", "Misamis Oriental",
    "Mountain Province", "Negros Occidental", "Negros Oriental",
    "Northern Samar", "Nueva Ecija", "Nueva Vizcaya", "Occidental Mindoro",
    "Oriental Mindoro", "Palawan", "Pampanga", "Pangasinan", "Quezon",
    "Quirino", "Rizal", "Romblon", "Samar", "Sarangani", "Siquijor",
    "Sorsogon", "South Cotabato", "Southern Leyte", "Sultan Kudarat",
    "Sulu", "Surigao del Norte", "Surigao del Sur", "Tarlac", "Tawi-Tawi",
    "Zambales", "Zamboanga del Norte", "Zamboanga del Sur",
    "Zamboanga Sibugay" ]

/-- Stage 1: known misspellings; the first map key occurring in the text
whose corrected form names a gazetteer entry resolves to that entry. -/
def stage_misspell (tl : List Char) : Option String :=
  misspelling_map.findSome? (fun kv =>
    if pyContains kv.1 tl then
      ph_locations.find? (fun loc => pyLower loc.data == kv.2.data)
    else none)

/-- Case-insensitive whole-word occurrence (`\b entry \b`). -/
def wholeWordIn (needle hay : List Char) : Bool :=
  scanPosB (fun prev s =>
    atBoundary prev && needle.isPrefixOf s && afterBoundary (s.drop needle.length))
    none hay

/-- Stage 2: first gazetteer entry matching as a whole word. -/
def stage_wholeword (tl : List Char) : Option String :=
  ph_locations.find? (fun loc => wholeWordIn (pyLower loc.data) tl)

/-- Stage 3: first gazetteer entry occurring as a substring. -/
def stage_substring (tl : List Char) : Option String :=
  ph_locations.find? (fun loc => charsInfixOf (pyLower loc.data) tl)

/-- Number of differing characters of the zipped words plus the length
difference (the extractor's simple edit distance). -/
def editDistApprox (w p : List Char) : Nat :=
  ((w.zip p).filter (fun q => !(q.1 = q.2))).length +
  ((w.length : Int) - (p.length : Int)).natAbs

/-- Fuzzy closeness test: length difference within the edit budget (1 for
parts of length at most 5, otherwise 2) and approximate edit distance
within the budget. -/
def editClose (w p : List Char) : Bool :=
  let maxEdits := if p.length ≤ 5 then 1 else 2
  ((w.length : Int) - (p.length : Int)).natAbs ≤ maxEdits &&
  editDistApprox w p ≤ maxEdits

/-- Stage 4: bounded-edit fuzzy match of each text word of length above 3
against the words of each gazetteer entry of length above 3. -/
def stage_fuzzy (tl : List Char) : Option String :=
  (pyWords tl).findSome? (fun w =>
    if 3 < w.length then
      ph_locations.findSome? (fun loc =>
        if 3 < loc.length then
          (pySplit (pyLower loc.data)).findSome? (fun part =>
            if 3 < part.length then
              if editClose w part then some loc else none
            else none)
        else none)
    else none)

/-- Parse one `[A-Za-z][a-z]+` word, returning its length. -/
def placeWordAt (s : List Char) : Option Nat :=
  match s with
  | c :: t =>
    if c.isAlpha then
      let low := t.takeWhile Char.isLower
      if low.isEmpty then none else some (1 + low.length)
    else none
  | [] => none

/-- Capture `([A-Za-z][a-z]+(?:\s+[A-Za-z][a-z]+)?)` at the current
position, returning the captured text and the rest of the input. -/
def placeCaptureAfter (r : List Char) : Option (List Char × List Char) :=
  (placeWordAt r).bind (fun len1 =>
    let after1 := r.drop len1
    let ws2 := after1.takeWhile Char.isWhitespace
    let second :=
      if ws2.isEmpty then none
      else (placeWordAt (after1.drop ws2.length)).map (fun len2 => ws2.length + len2)
    match second with
    | some extra => some (r.take (len1 + extra), r.drop (len1 + extra))
    | none => some (r.take len1, after1))

/-- Try the prefix alternatives of a place pattern at one position. -/
def placePatternAt (pres : List (List Char → Option (List Char)))
    (s : List Char) : Option (List Char × List Char) :=
  pres.findSome? (fun pre => (pre s).bind placeCaptureAfter)

/-- Standard place-pattern prefix: a literal followed by `\s+`. -/
def stdPre (lit : String) : List Char → Option (List Char) :=
  fun s => (parseLit lit s).bind parseWsPlus

/-- Shapes of `(?:apektadong lugar)\s+(?:ay|ang)?\s+`, in backtracking
order: with `ay`, with `ang`, and without the optional word (then the
two `\s+` need at least two whitespace characters). -/
def apektadongPres : List (List Char → Option (List Char)) :=
  [ fun s => ((((parseLit "apektadong lugar" s).bind parseWsPlus).bind
      (parseLit "ay")).bind parseWsPlus),
    fun s => ((((parseLit "apektadong lugar" s).bind parseWsPlus).bind
      (parseLit "ang")).bind parseWsPlus),
    fun s => (parseLit "apektadong lugar" s).bind (fun r =>
      let w := r.takeWhile Char.isWhitespace
      if 2 ≤ w.length then some (r.drop w.length) else none) ]

/-- The seven `place_patterns`, each as its list of prefix parsers. -/
def place_patterns : List (List (List Char → Option (List Char))) :=
  [ [ "in", "at", "from", "to", "near", "around" ].map stdPre,
    [ "sa", "ng", "mula", "papunta", "malapit", "dito sa", "nangyari sa",
      "galing sa" ].map stdPre,
    [ "baha sa", "lindol sa", "sunog sa", "bagyo sa", "landslide sa",
      "putok ng bulkan sa" ].map stdPre,
    [ "affected areas include", "affected areas are", "affected areas is",
      "affected area include", "affected area are",
      "affected area is" ].map stdPre,
    apektadongPres,
    [ "city of", "municipality of", "town of", "province of", "bayan ng",
      "lungsod ng", "lalawigan ng" ].map stdPre ]

/-- Fueled `re.findall`: leftmost non-overlapping matches, resuming after
each match end. -/
def findAllPlaces (pres : List (List Char → Option (List Char))) :
    Nat → List Char → List (List Char)
  | 0, _ => []
  | _ + 1, [] => []
  | fuel + 1, c :: t =>
    match placePatternAt pres (c :: t) with
    | some (cap, rest) => cap :: findAllPlaces pres fuel rest
    | none => findAllPlaces pres fuel t

/-- Stage 5: prepositional place patterns over the raw text; every
capture is compared with the gazetteer exactly and then fuzzily. -/
def stage_places (text : List Char) : Option String :=
  place_patterns.findSome? (fun pres =>
    (findAllPlaces pres (text.length + 1) text).findSome? (fun cap =>
      let ml := pyLower cap
      ph_locations.findSome? (fun loc =>
        let ll := pyLower loc.data
        if ml == ll then some loc
        else if 3 < ml.length && 3 < ll.length then
          (pySplit ll).findSome? (fun part =>
            if 3 < part.length then
              if editClose ml part then some loc else none
            else none)
        else none)))

/-- Final narrow heuristic: flood plus road keyword plus a Manila
synonym yields "Manila". -/
def stage_flood (tl : List Char) : Option String :=
  if pyContains "baha" tl &&
     (pyContains "kalsada" tl || pyContains "daan" tl || pyContains "street" tl) then
    if pyContainsAny [ "manila", "maynila", "mnl", "ncr", "metro" ] tl then
      some "Manila"
    else none
  else none

/-- The staged location extractor (`extract_location`): first-match-wins
over the stages, defaulting to "UNKNOWN". -/
def extract_location (text : String) : String :=
  if text.isEmpty then "UNKNOWN"
  else
    let t := text.data
    let tl := pyLower t
    (((((((((stage_upper t).orElse (fun _ => stage_emergency tl)).orElse
      (fun _ => stage_sa tl)).orElse
      (fun _ => stage_misspell tl)).orElse
      (fun _ => stage_wholeword tl)).orElse
      (fun _ => stage_substring tl)).orElse
      (fun _ => stage_fuzzy tl)).orElse
      (fun _ => stage_places t)).orElse
      (fun _ => stage_flood tl)).getD "UNKNOWN"

/-! ### Key-pool dispatcher (`get_api_sentiment_analysis` key rotation) -/

/-- Key index of the first successful attempt: the source tries
`min(3, num_keys)` attempts, attempt `a` using key
`(current_key_index + a) % num_keys`, and stops at the first success
(failures, including rate limits, move to the next attempt). -/
def nextSuccessfulKey (numKeys cur : Nat) (succ : Nat → Bool) : Option Nat :=
  ((List.range (min 3 numKeys)).find? (fun a => succ ((cur + a) % numKeys))).map
    (fun a => (cur + a) % numKeys)

/-- Pointer after one dispatched request: one past the successful key on
success (`self.current_key_index = (key_index + 1) % num_keys`), and
unchanged when every attempt fails. -/
def rotate_after_request (numKeys cur : Nat) (succ : Nat → Bool) : Nat :=
  match nextSuccessfulKey numKeys cur succ with
  | some k => (k + 1) % numKeys
  | none => cur

/-- Pointer after `k` consecutive dispatched requests that all succeed on
their first attempt. -/
def allSuccessCalls (numKeys : Nat) : Nat → Nat → Nat
  | cur, 0 => cur
  | cur, Nat.succ k =>
    allSuccessCalls numKeys (rotate_after_request numKeys cur (fun _ => true)) k

/-! ### Feedback and validation subsystem -/

/-- Which reason template of `_validate_sentiment_correction` the
returned reason string was built from (the dynamic parts of the
f-strings are irrelevant to the claims and not reproduced). -/
inductive VReason where
  | empty
  | notice
  | acceptedLowConf
  | acceptedClose
  | failed
  | passedExact
  | passedMinor
  | fromRemote
deriving DecidableEq, Repr

/-- The five sentiment labels (`self.sentiment_labels`). -/
def sentiment_labels : List String :=
  [ "Panic", "Fear/Anxiety", "Disbelief", "Resilience", "Neutral" ]

/-- The emotional-progression ordering used by the validator
(`sentiment_categories`). -/
def sentiment_categories : List String :=
  [ "Panic", "Fear/Anxiety", "Disbelief", "Resilience", "Neutral" ]

/-- Python `sentiment_categories.index(s) if s in sentiment_categories
else -1`. -/
def categoryIndex (s : String) : Int :=
  match sentiment_categories.findIdx? (fun x => x == s) with
  | some i => (i : Int)
  | none => -1

/-- Decision logic of `_validate_sentiment_correction` after the
independent re-classification (`ai` sentiment with confidence in
hundredths): the result starts valid; a differing correction stays valid
in every branch (the far-disagreement high-confidence branch only swaps
in a notice text); the `failed` rewrite is dead code; finally the reason
is overwritten with the passed-exact or passed-minor template. -/
def validate_local (corrected ai : String) (aiConf : Nat) : Bool × VReason :=
  let r0 : Bool × VReason := (true, VReason.empty)
  let r1 :=
    if corrected ≠ ai then
      let aiIdx := categoryIndex ai
      let cIdx := categoryIndex corrected
      if aiIdx ≠ -1 && cIdx ≠ -1 && 2 < (aiIdx - cIdx).natAbs then
        if 90 < aiConf then (true, VReason.notice) else (true, VReason.acceptedLowConf)
      else (true, VReason.acceptedClose)
    else r0
  let r2 := if !r1.1 then (false, VReason.failed) else r1
  if r2.1 then
    (true, if corrected = ai then VReason.passedExact else VReason.passedMinor)
  else r2

/-- Full validation step: when the remote validator returns a structured
verdict (or the parse-error default), that verdict is used directly;
otherwise the local quiz logic runs against the independent
re-classification. -/
def validate_sentiment_correction (remote : Option Bool) (corrected ai : String)
    (aiConf : Nat) : Bool × VReason :=
  match remote with
  | some b => (b, VReason.fromRemote)
  | none => validate_local corrected ai aiConf

/-- Python-style association-list update (dict assignment): an existing
key keeps its position, a new key is appended. -/
def assocSet [BEq κ] (m : List (κ × ν)) (k : κ) (v : ν) : List (κ × ν) :=
  if m.any (fun p => p.1 == k) then
    m.map (fun p => if p.1 == k then (k, v) else p)
  else m ++ [ (k, v) ]

/-- Python dict lookup. -/
def assocGet [BEq κ] (m : List (κ × ν)) (k : κ) : Option ν :=
  (m.find? (fun p => p.1 == k)).map (fun p => p.2)

/-- Mutable backend state touched by the modelled methods: the three
feedback dictionaries, the rotation pointer, the per-key success
counters and the credential-pool size. -/
structure BackendState where
  trained_examples : List (String × String)
  location_examples : List (String × String)
  disaster_examples : List (String × String)
  current_key_index : Nat
  key_success_count : List (Nat × Nat)
  num_keys : Nat
deriving DecidableEq, Repr

/-- Python banker's rounding to two decimals on exact rationals
(`round(x, 2)`). -/
def pyRound2 (x : ℚ) : ℚ :=
  let y := x * 100
  let n := ⌊y⌋
  let frac := y - n
  (if frac < 1 / 2 then (n : ℚ)
   else if 1 / 2 < frac then (n : ℚ) + 1
   else if n % 2 = 0 then (n : ℚ) else (n : ℚ) + 1) / 100

/-- The cache update `_update_training_data`: stores the sentiment under
the joined lowercase word key, and the location and disaster type when
nonempty (the language argument is only logged by the source). -/
def update_training_data (st : BackendState) (words : List (List Char))
    (sentiment _language location disasterType : String) : BackendState :=
  let textKey : String := ⟨pyLower (joinSpace words)⟩
  let st1 := { st with trained_examples := assocSet st.trained_examples textKey sentiment }
  let st2 :=
    if location ≠ "" then
      { st1 with location_examples := assocSet st1.location_examples textKey location }
    else st1
  if disasterType ≠ "" then
    { st2 with disaster_examples := assocSet st2.disaster_examples textKey disasterType }
  else st2

/-- Message field of a feedback response, by template. -/
inductive FBMessage where
  | noValidCorrections
  | invalidLabel
  | validationReason (r : VReason)
  | successMessage
deriving DecidableEq, Repr

/-- Synthetic performance block of a feedback response. -/
structure Performance where
  previous_accuracy : ℚ
  new_accuracy : ℚ
  improvement : ℚ
deriving DecidableEq, Repr

/-- Response of `train_on_feedback`. -/
structure FeedbackResponse where
  status : String
  message : FBMessage
  performance : Option Performance
deriving DecidableEq, Repr

/-- The feedback trainer `train_on_feedback(original_text,
original_sentiment, corrected_sentiment, corrected_location,
corrected_disaster_type)`.  `validation` is the result of
`_validate_sentiment_correction` and `r` the draw of `random.uniform`.
When a sentiment correction is present the function returns from inside
the validation block - before the `_update_training_data` call - so the
state is returned unchanged on that path. -/
def train_on_feedback (st : BackendState)
    (original_text original_sentiment corrected_sentiment
     corrected_location corrected_disaster_type : String)
    (validation : Bool × VReason) (r : ℚ) : FeedbackResponse × BackendState :=
  let hs := original_text ≠ "" && original_sentiment ≠ "" && corrected_sentiment ≠ ""
  let hl := original_text ≠ "" && corrected_location ≠ ""
  let hd := original_text ≠ "" && corrected_disaster_type ≠ ""
  if !(hs || hl || hd) then
    (⟨"error", FBMessage.noValidCorrections, none⟩, st)
  else if hs && !(sentiment_labels.contains corrected_sentiment) then
    (⟨"error", FBMessage.invalidLabel, none⟩, st)
  else if hs then
    let f := if !validation.1 then r * (1 / 2) else r
    let previousAccuracy : ℚ := 86 / 100
    let newAccuracy := min (88 / 100) (pyRound2 (previousAccuracy + f))
    (⟨if !validation.1 then "quiz_feedback" else "success",
      FBMessage.validationReason validation.2,
      some ⟨previousAccuracy, newAccuracy, newAccuracy - previousAccuracy⟩⟩, st)
  else
    let words := pyWords (pyLower original_text.data)
    let sentimentToStore := if hs then corrected_sentiment else original_sentiment
    let st2 := update_training_data st words sentimentToStore "English"
      corrected_location corrected_disaster_type
    let newAccuracy := min (88 / 100) (pyRound2 ((86 : ℚ) / 100 + r))
    (⟨"success", FBMessage.successMessage,
      some ⟨86 / 100, newAccuracy, newAccuracy - 86 / 100⟩⟩, st2)

/-! ### Remote adapter and `analyze_sentiment` -/

/-- Classification record produced by the pipeline, disaster type and
location included. -/
structure ClassificationResult where
  sentiment : String
  confidence : Nat
  explanation : String
  disasterType : String
  location : String
  language : String
deriving DecidableEq, Repr

/-- Parsed JSON payload of a successful remote response; `none` fields
were missing from the JSON. -/
structure ApiRaw where
  sentiment : Option String
  confidence : Option Nat
  explanation : Option String
  disasterType : Option String
  location : Option String
  language : Option String

/-- Post-processing of a parsed remote response (bulk path): back-fill
missing fields (defaults `"Neutral"`, `0.7`, extractor outputs, caller
language) and force-convert Fear/Anxiety to Neutral on
descriptive-without-emotion text. -/
def postProcessApi (text language : String) (raw : ApiRaw) : ClassificationResult :=
  let s := raw.sentiment.getD "Neutral"
  let conf := raw.confidence.getD 70
  let expl := raw.explanation.getD "No explanation provided"
  let dt := raw.disasterType.getD (extract_disaster_type text)
  let loc := raw.location.getD (extract_location text)
  let lang := raw.language.getD language
  let tl := pyLower text.data
  let corrected :=
    if looks_descriptive tl && !has_emotion text.data && s = "Fear/Anxiety" then "Neutral"
    else s
  ⟨corrected, conf, expl, dt, loc, lang⟩

/-- Rule-based fallback with extractor metadata attached, as built after
the remote attempts fail (the final `round(confidence, 2)` is the
identity on the hundredths representation). -/
def rb_with_extractors (text language : String) : ClassificationResult :=
  let fb := rule_based_sentiment_analysis text language
  ⟨fb.sentiment, fb.confidence, fb.explanation, extract_disaster_type text,
   extract_location text, language⟩

/-- External-effect oracles of one classification call: language
detection (`none` models a raised exception), the feedback-JSON parse,
the caller-inspection result, the presence of `VALIDATION_API_KEY`, the
parsed DeepSeek response of the real-time path (`none` models any
failure), per-key success of the pooled remote attempts, the parsed
pooled response, the independent re-classification used by validation
(`none` falls back to the rule-based classifier), the remote validation
verdict, and the `random.uniform` draw. -/
structure Oracles where
  detect : String → Option String
  parseFeedback : String → Option (String × String × String)
  isRealtime : Bool
  validationKey : Bool
  deepseek : String → Option ApiRaw
  apiSucc : Nat → Bool
  apiRaw : String → ApiRaw
  aiAnalysis : String → Option (String × Nat)
  remoteValidation : Option Bool
  rand : ℚ

/-- The pooled remote call `get_api_sentiment_analysis`: an empty pool
degrades immediately to the rule-based fallback; otherwise up to three
keys are tried, a success advances the pointer past the used key and
bumps its counter, and exhaustion falls back to the rule-based result
with the state unchanged. -/
def get_api_sentiment_analysis (st : BackendState) (o : Oracles)
    (text language : String) : ClassificationResult × BackendState :=
  let n := st.num_keys
  if n = 0 then (rb_with_extractors text language, st)
  else
    match nextSuccessfulKey n st.current_key_index o.apiSucc with
    | some k =>
      (postProcessApi text language (o.apiRaw text),
       { st with
         current_key_index := (k + 1) % n,
         key_success_count :=
           assocSet st.key_success_count k ((assocGet st.key_success_count k).getD 0 + 1) })
    | none => (rb_with_extractors text language, st)

/-- The sentiment mapping applied to unrecognised DeepSeek labels. -/
def sentiment_map : List (String × String) :=
  [ ("PANIC", "Panic"), ("FEAR", "Fear/Anxiety"), ("ANXIETY", "Fear/Anxiety"),
    ("FEAR/ANXIETY", "Fear/Anxiety"), ("NEUTRAL", "Neutral"),
    ("DISBELIEF", "Disbelief"), ("RESILIENCE", "Resilience"),
    ("HOPE", "Resilience") ]

/-- Result of one `analyze_sentiment` call: a classification, the
real-time DeepSeek shape (whose disaster type and location may be
absent), or a feedback response when the input was feedback JSON. -/
inductive AnalyzeOut where
  | classification (c : ClassificationResult)
  | realtime (sentiment : String) (confidence : Nat) (explanation : String)
      (disasterType : Option String) (location : Option String) (language : String)
  | feedback (f : FeedbackResponse)
deriving DecidableEq, Repr

/-- Validation outcome used by a feedback call: the remote verdict when
present, otherwise the local quiz logic against the independent
re-classification (rule-based when the oracle has none). -/
def validation_for (o : Oracles) (text corrected : String) : Bool × VReason :=
  match o.remoteValidation with
  | some b => (b, VReason.fromRemote)
  | none =>
    match o.aiAnalysis text with
    | some (s, c) => validate_local corrected s c
    | none =>
      let rb := rule_based_sentiment_analysis text "English"
      validate_local corrected rb.sentiment rb.confidence

/-- The primary entry point `analyze_sentiment(text)`: empty or
whitespace-only text returns the fixed sentinel without consulting the
extractors; feedback JSON is routed to the trainer; an exact
trained-example hit returns the cached sentiment with confidence 0.88
and freshly extracted metadata; the real-time DeepSeek path applies the
label mapping, the descriptive correction and the 0.97 cap; otherwise
the pooled remote call (with rule-based fallback) is used. -/
def analyze_sentiment (st : BackendState) (o : Oracles) (text : String) :
    AnalyzeOut × BackendState :=
  if (pyStrip text.data).isEmpty then
    (.classification ⟨"Neutral", 82, "No text provided", "UNKNOWN", "UNKNOWN", "English"⟩, st)
  else
    let language :=
      match o.detect text with
      | some code => if code = "tl" || code = "fil" then "Filipino" else "English"
      | none => "English"
    match o.parseFeedback text with
    | some (ot, os, cs) =>
      let (resp, st2) :=
        train_on_feedback st ot os cs "" "" (validation_for o ot cs) o.rand
      (.feedback resp, st2)
    | none =>
      let joined : String := ⟨pyLower (joinSpace (pyWords (pyLower text.data)))⟩
      match assocGet st.trained_examples joined with
      | some trained =>
        (.classification
          ⟨trained, 88,
           (if language = "Filipino" then
              "Klasipikasyon batay sa kauna-unahang feedback para sa mensaheng ito: " ++ trained
            else
              "Classification based on previous user feedback for this exact message: " ++ trained),
           extract_disaster_type text, extract_location text, language⟩, st)
      | none =>
        let pooled :=
          let (res, st2) := get_api_sentiment_analysis st o text language
          (AnalyzeOut.classification res, st2)
        if o.isRealtime && o.validationKey then
          match o.deepseek text with
          | some ds =>
            match ds.sentiment with
            | some s0 =>
              let s1 :=
                if sentiment_labels.contains s0 then s0
                else (assocGet sentiment_map ⟨pyUpper s0.data⟩).getD "Neutral"
              let corrected :=
                if looks_descriptive (pyLower text.data) && !has_emotion text.data &&
                   s1 = "Fear/Anxiety" then "Neutral"
                else s1
              (.realtime corrected (min 97 (ds.confidence.getD 85))
                (ds.explanation.getD "Analysis via DeepSeek R1 Distill Llama 70B")
                ds.disasterType ds.location language, st)
            | none => pooled
          | none => pooled
        else pooled

/-! ### Batch pipeline (`process_csv` batching and cooldown) -/

/-- Python `range(0, n, BATCH_SIZE)` with `BATCH_SIZE = 30`: the batch
start offsets of an `n`-row CSV. -/
def batch_starts (n : Nat) : List Nat :=
  (List.range ((n + 29) / 30)).map (fun k => 30 * k)

/-- Row count of each batch (`indices[start : start + 30]`). -/
def batch_sizes (n : Nat) : List Nat :=
  (batch_starts n).map (fun s => min 30 (n - s))

/-- Whether the source sleeps after the batch starting at `s`: only when
another batch follows (`batch_start + BATCH_SIZE < len(indices)`) and
the file has more than 30 rows (`sample_size <= 30` skips the
cooldown). -/
def cooldown_after (n s : Nat) : Bool :=
  (s + 30 < n) && (30 < n)

/-- Number of 60-second cooldowns of an `n`-row CSV. -/
def cooldown_count (n : Nat) : Nat :=
  ((batch_starts n).filter (fun s => cooldown_after n s)).length

/-! ### Shared concrete material for the claim theorems -/

/-- A twelve-word input all of whose words hit the Panic keyword list,
with three of them also hitting the panic-phrase list: the final Panic
score is 18, driving the unclamped confidence formula to 1.24. -/
def overloadText : String :=
  "emergency trapped dying death urgent critical saklolo naiipit mamamatay agad kritikal emerhensya"

/-- Oracle bundle of a bulk (non-real-time) call whose remote attempts
all fail, with Filipino language detection, no feedback JSON, no remote
validation verdict and no remote re-classification. -/
def oracleAllFail : Oracles :=
  { detect := fun _ => some "tl", parseFeedback := fun _ => none,
    isRealtime := false, validationKey := false, deepseek := fun _ => none,
    apiSucc := fun _ => false, apiRaw := fun _ => ⟨none, none, none, none, none, none⟩,
    aiAnalysis := fun _ => none, remoteValidation := none, rand := 3 / 1000 }

/-- An empty backend state with a five-credential pool. -/
def emptyState5 : BackendState := ⟨[], [], [], 0, [], 5⟩

/-- An empty backend state with no credentials. -/
def emptyState0 : BackendState := ⟨[], [], [], 0, [], 0⟩

/-- Helper for the confidence-range analysis: an if-then-else of
confidences is bounded or equals the score formula when both branches
are. -/
theorem confIte (c : Prop) [Decidable c] {a b m : Nat}
    (ha : a ≤ 100 ∨ a = m) (hb : b ≤ 100 ∨ b = m) :
    (if c then a else b) ≤ 100 ∨ (if c then a else b) = m := by
  split
  · exact ha
  · exact hb

/-! ### Claim C1 -/

/-- Claim C1, counterexample: on `overloadText` the rule-based
classifier's scored path yields confidence 0.70 + 0.03·18 = 1.24, which
is strictly greater than 1.0, refuting "the confidence computed by the
rule-based classifier as 0.70 + 0.03×max_score is never greater than
1.0" and with it the invariant that every stage's confidence lies in
[0, 1]. -/
theorem c1_confidence_counterexample :
    (rule_based_sentiment_analysis overloadText "English").confidence = 124 ∧
    100 < (rule_based_sentiment_analysis overloadText "English").confidence ∧
    rbMax (rb_scores overloadText.data) = 18 := by
  refine ⟨by decide, by decide, by decide⟩

/-- Claim C1 (amended): every confidence produced by the rule-based
classifier is a 2-decimal value (hundredths by construction) that is
either at most 1.00 - all fixed-constant exits lie in [0.83, 0.97] -
or exactly the unclamped 0.70 + 0.03×max_score of the scored exit,
which exceeds 1.00 whenever the maximal score is 11 or more. -/
theorem c1_confidence_amended : ∀ (text language : String),
    (rule_based_sentiment_analysis text language).confidence ≤ 100 ∨
    (rule_based_sentiment_analysis text language).confidence =
      70 + 3 * rbMax (rb_scores text.data) := by
  intro text language
  unfold rule_based_sentiment_analysis rbFinish
  dsimp only
  simp only [apply_ite SentimentOut.confidence]
  repeat' first
    | refine confIte _ ?_ ?_
    | (left; decide)
    | (right; rfl)

/-! ### Claim C2 -/

/-- Claim C2 (code bug): recording the sentiment correction "Panic" for
the text "may sunog" reports success but leaves the trained-example
cache empty, because `train_on_feedback` returns from the sentiment
validation block before `_update_training_data` runs; the subsequent
`analyze_sentiment` call on the same text therefore misses the cache and
returns the rule-based "Neutral" instead of the recorded "Panic".  The
final conjunct shows the round trip would behave differently had the
cache been populated as the claim requires. -/
theorem c2_feedback_roundtrip_broken :
    (train_on_feedback emptyState5 "may sunog" "Neutral" "Panic" "" ""
        (validation_for oracleAllFail "may sunog" "Panic") (3 / 1000)).1.status = "success" ∧
    (train_on_feedback emptyState5 "may sunog" "Neutral" "Panic" "" ""
        (validation_for oracleAllFail "may sunog" "Panic") (3 / 1000)).2 = emptyState5 ∧
    (analyze_sentiment
        (train_on_feedback emptyState5 "may sunog" "Neutral" "Panic" "" ""
          (validation_for oracleAllFail "may sunog" "Panic") (3 / 1000)).2
        oracleAllFail "may sunog").1 =
      AnalyzeOut.classification
        ⟨"Neutral", 92,
         "Descriptive statement without emotional markers. These types of informative reports should be classified as Neutral regardless of disaster content.",
         "Fire", "UNKNOWN", "Filipino"⟩ ∧
    analyze_sentiment emptyState5 oracleAllFail "may sunog" ≠
      analyze_sentiment ⟨[ ("may sunog", "Panic") ], [], [], 0, [], 5⟩ oracleAllFail "may sunog" := by
  refine ⟨by decide, by decide, by decide, by decide⟩

/-! ### Claim C3 -/

/-- Claim C3, counterexample: "may sunog" has 2 tokens and no emotional
keyword, yet the rule-based classifier returns confidence 0.92 (the
descriptive-statement rule fires first), not the claimed 0.90. -/
theorem c3_short_text_counterexample :
    (rule_based_sentiment_analysis "may sunog" "English").sentiment = "Neutral" ∧
    (rule_based_sentiment_analysis "may sunog" "English").confidence = 92 ∧
    (rule_based_sentiment_analysis "may sunog" "English").confidence ≠ 90 := by
  refine ⟨by decide, by decide, by decide⟩

/-- Claim C3 (amended): a text of at most 3 whitespace tokens with no
keyword of the short-statement emotion list is classified Neutral, with
confidence 0.92 when the descriptive-without-emotion rule fires first
(a descriptive cue word present and no emotional word or marker) and
0.90 otherwise. -/
theorem c3_short_text_neutral : ∀ (text language : String),
    (pySplit (pyLower text.data)).length ≤ 3 →
    short_emotion_words.any (fun w => pyContains w (pyLower text.data)) = false →
    (rule_based_sentiment_analysis text language).sentiment = "Neutral" ∧
    (rule_based_sentiment_analysis text language).confidence =
      (if looks_descriptive (pyLower text.data) && !has_emotion text.data then 92 else 90) := by
  intro text language hwc hemo
  unfold rule_based_sentiment_analysis
  dsimp only
  by_cases hd : (looks_descriptive (pyLower text.data) && !has_emotion text.data) = true
  · simp [hd]
  · simp only [Bool.not_eq_true] at hd
    simp [hd, hwc, hemo]

/-- Claim C3, witness: the amended theorem applied to the one-token,
emotion-free, non-descriptive text "ok" gives Neutral with 0.90. -/
theorem c3_short_text_neutral_witness :
    (pySplit (pyLower "ok".data)).length ≤ 3 ∧
    short_emotion_words.any (fun w => pyContains w (pyLower "ok".data)) = false ∧
    (rule_based_sentiment_analysis "ok" "English").sentiment = "Neutral" ∧
    (rule_based_sentiment_analysis "ok" "English").confidence = 90 :=
  ⟨by decide, by decide,
   (c3_short_text_neutral "ok" "English" (by decide) (by decide)).1,
   by rw [(c3_short_text_neutral "ok" "English" (by decide) (by decide)).2]; decide⟩

/-! ### Claim C4 -/

/-- Claim C4, counterexample: a dispatched request whose three attempts
all fail leaves the key pointer at 0 instead of advancing it to 1,
refuting "the pointer advances by one modulo the pool size after every
dispatched request, regardless of success or failure". -/
theorem c4_rotation_counterexample :
    rotate_after_request 3 0 (fun _ => false) = 0 ∧
    rotate_after_request 3 0 (fun _ => false) ≠ (0 + 1) % 3 := by
  refine ⟨by decide, by decide⟩

/-- Claim C4 (amended): the pointer is unchanged when every attempt of a
call fails; on a call whose first attempt succeeds it advances to one
past the used key; consequently, when every call succeeds, the pointer
moves one step per call, returns to the first credential after exactly
N calls, and not earlier. -/
theorem c4_rotation_amended :
    (∀ (n cur : Nat) (succ : Nat → Bool),
      (∀ a, a < min 3 n → succ ((cur + a) % n) = false) →
      rotate_after_request n cur succ = cur) ∧
    (∀ (n cur : Nat) (succ : Nat → Bool), 0 < n → succ (cur % n) = true →
      rotate_after_request n cur succ = (cur % n + 1) % n) ∧
    (∀ (n cur k : Nat), 0 < n → cur < n →
      allSuccessCalls n cur k = (cur + k) % n) ∧
    (∀ n : Nat, 0 < n → allSuccessCalls n 0 n = 0) ∧
    (∀ n j : Nat, 0 < j → j < n → allSuccessCalls n 0 j ≠ 0) := by
  have hrotTrue : ∀ n cur : Nat, 0 < n →
      rotate_after_request n cur (fun _ => true) = (cur % n + 1) % n := by
    intro n cur hn
    unfold rotate_after_request nextSuccessfulKey
    have h3 : min 3 n ≠ 0 := by omega
    obtain ⟨m, hm⟩ := Nat.exists_eq_succ_of_ne_zero h3
    rw [hm, List.range_succ_eq_map]
    simp
  have hiter : ∀ (n k cur : Nat), 0 < n → cur < n →
      allSuccessCalls n cur k = (cur + k) % n := by
    intro n k
    induction k with
    | zero => intro cur hn hcur; simpa [allSuccessCalls] using (Nat.mod_eq_of_lt hcur).symm
    | succ k ih =>
      intro cur hn hcur
      show allSuccessCalls n (rotate_after_request n cur (fun _ => true)) k = _
      rw [hrotTrue n cur hn, Nat.mod_eq_of_lt hcur]
      rw [ih ((cur + 1) % n) hn (Nat.mod_lt _ hn)]
      rw [Nat.mod_add_mod]
      congr 1
      omega
  refine ⟨?_, ?_, ?_, ?_, ?_⟩
  · intro n cur succ hfail
    unfold rotate_after_request nextSuccessfulKey
    have hnone : (List.range (min 3 n)).find? (fun a => succ ((cur + a) % n)) = none := by
      rw [List.find?_eq_none]
      intro a ha
      rw [List.mem_range] at ha
      simp [hfail a ha]
    rw [hnone]
    rfl
  · intro n cur succ hn hsucc
    unfold rotate_after_request nextSuccessfulKey
    have h3 : min 3 n ≠ 0 := by omega
    obtain ⟨m, hm⟩ := Nat.exists_eq_succ_of_ne_zero h3
    rw [hm, List.range_succ_eq_map]
    simp [hsucc]
  · intro n cur k hn hcur
    exact hiter n k cur hn hcur
  · intro n hn
    rw [hiter n n 0 hn hn]
    simp
  · intro n j hj hjn
    rw [hiter n j 0 (by omega) (by omega)]
    rw [Nat.zero_add, Nat.mod_eq_of_lt hjn]
    omega

/-- Claim C4, witness: with four always-succeeding credentials the
pointer cycles back to 0 after exactly four calls and is nonzero after
two. -/
theorem c4_rotation_witness :
    (0 : Nat) < 4 ∧ allSuccessCalls 4 0 4 = 0 ∧
    (0 : Nat) < 2 ∧ (2 : Nat) < 4 ∧ allSuccessCalls 4 0 2 ≠ 0 :=
  ⟨by decide, c4_rotation_amended.2.2.2.1 4 (by decide), by decide, by decide,
   c4_rotation_amended.2.2.2.2 4 2 (by decide) (by decide)⟩

/-! ### Claim C5 -/

/-- Facts about any string contained in the five-label list. -/
theorem label_facts {s : String} (h : sentiment_labels.contains s = true) :
    s ∈ sentiment_labels ∧ s ≠ "" ∧ categoryIndex s ≠ -1 := by
  have h2 := h
  simp only [sentiment_labels, List.contains_cons, List.contains_nil,
    Bool.or_eq_true, beq_iff_eq] at h2
  rcases h2 with rfl | rfl | rfl | rfl | rfl | h2
  · exact ⟨by simp [sentiment_labels], by decide, by decide⟩
  · exact ⟨by simp [sentiment_labels], by decide, by decide⟩
  · exact ⟨by simp [sentiment_labels], by decide, by decide⟩
  · exact ⟨by simp [sentiment_labels], by decide, by decide⟩
  · exact ⟨by simp [sentiment_labels], by decide, by decide⟩
  · exact absurd h2 (by decide)

/-- Claim C5, counterexample: a correction more than 2 ordinal steps
from the independent re-classification ("Panic" against "Neutral", four
steps) with re-classification confidence 0.95 > 0.90 is NOT flagged:
the validator stays valid with the generic passed-with-minor-difference
reason, `train_on_feedback` returns the plain "success" status with the
unhalved improvement, and the correction is not stored anywhere. -/
theorem c5_disagreement_counterexample :
    validate_local "Panic" "Neutral" 95 = (true, VReason.passedMinor) ∧
    (train_on_feedback emptyState0 "pagbaha kahapon" "Neutral" "Panic" "" ""
        (validate_local "Panic" "Neutral" 95) (1 / 250)).1.status = "success" ∧
    (train_on_feedback emptyState0 "pagbaha kahapon" "Neutral" "Panic" "" ""
        (validate_local "Panic" "Neutral" 95) (1 / 250)).2 = emptyState0 ∧
    (train_on_feedback emptyState0 "pagbaha kahapon" "Neutral" "Panic" "" ""
        (false, VReason.fromRemote) (1 / 250)).1.status = "quiz_feedback" := by
  refine ⟨by decide, by decide, by decide, by decide⟩

/-- Claim C5 (amended): whenever a valid-label sentiment correction
differs from the independent re-classification by more than 2 ordinal
steps and the re-classification confidence exceeds 0.90, the validator
still reports valid with the overwritten passed-with-minor-difference
reason, `train_on_feedback` answers with plain status "success", leaves
the state (and hence the trained-example cache) unchanged, and computes
the synthetic metrics from the unhalved improvement draw `r`; the
halving and the distinct "quiz_feedback" status occur only when the
remote validator itself returns an invalid verdict. -/
theorem c5_disagreement_amended : ∀ (st : BackendState) (t os cs ai : String) (conf : Nat) (r : ℚ),
    t ≠ "" → os ≠ "" →
    sentiment_labels.contains cs = true →
    categoryIndex ai ≠ -1 →
    2 < ((categoryIndex ai) - (categoryIndex cs)).natAbs →
    90 < conf →
    validate_local cs ai conf = (true, VReason.passedMinor) ∧
    (train_on_feedback st t os cs "" "" (validate_local cs ai conf) r).1.status = "success" ∧
    (train_on_feedback st t os cs "" "" (validate_local cs ai conf) r).2 = st ∧
    (train_on_feedback st t os cs "" "" (validate_local cs ai conf) r).1.performance =
      some ⟨86 / 100, min (88 / 100) (pyRound2 (86 / 100 + r)),
            min (88 / 100) (pyRound2 (86 / 100 + r)) - 86 / 100⟩ := by
  intro st t os cs ai conf r ht hos hcs hai hdist hconf
  obtain ⟨hmem, hcs', hcidx⟩ := label_facts hcs
  have hne : cs ≠ ai := by
    intro h
    rw [h] at hdist
    simp at hdist
  have hval : validate_local cs ai conf = (true, VReason.passedMinor) := by
    simp [validate_local, hne, hai, hcidx, hdist, hconf]
  refine ⟨hval, ?_, ?_, ?_⟩ <;>
    simp [train_on_feedback, ht, hos, hcs', hmem, hval]

/-- Claim C5, witness: the amended theorem at the concrete
far-disagreement instance "Panic" against "Neutral" at confidence
0.95. -/
theorem c5_disagreement_witness :
    ("x" : String) ≠ "" ∧ ("Neutral" : String) ≠ "" ∧
    sentiment_labels.contains "Panic" = true ∧
    categoryIndex "Neutral" ≠ -1 ∧
    2 < ((categoryIndex "Neutral") - (categoryIndex "Panic")).natAbs ∧
    90 < 95 ∧
    (train_on_feedback emptyState0 "x" "Neutral" "Panic" "" ""
        (validate_local "Panic" "Neutral" 95) (1 / 250)).1.status = "success" ∧
    (train_on_feedback emptyState0 "x" "Neutral" "Panic" "" ""
        (validate_local "Panic" "Neutral" 95) (1 / 250)).2 = emptyState0 :=
  ⟨by decide, by decide, by decide, by decide, by decide, by decide,
   (c5_disagreement_amended emptyState0 "x" "Neutral" "Panic" "Neutral" 95 (1 / 250)
     (by decide) (by decide) (by decide) (by decide) (by decide) (by decide)).2.1,
   (c5_disagreement_amended emptyState0 "x" "Neutral" "Panic" "Neutral" 95 (1 / 250)
     (by decide) (by decide) (by decide) (by decide) (by decide) (by decide)).2.2.1⟩

/-! ### Claim C6 -/

/-- Claim C6: on text that matches the descriptive-without-emotion
pattern (a descriptive cue word present and neither an emotional word
nor an emotional marker), the rule-based classifier returns Neutral, and
the remote-adapter post-processing never outputs Fear/Anxiety: a
Fear/Anxiety label is force-converted to Neutral and any other label is
already different from Fear/Anxiety. -/
theorem c6_descriptive_never_fear : ∀ (text language : String) (raw : ApiRaw),
    looks_descriptive (pyLower text.data) = true →
    has_emotion text.data = false →
    (rule_based_sentiment_analysis text language).sentiment = "Neutral" ∧
    (postProcessApi text language raw).sentiment ≠ "Fear/Anxiety" := by
  intro text language raw hd hne
  constructor
  · unfold rule_based_sentiment_analysis
    dsimp only
    simp [hd, hne]
  · unfold postProcessApi
    dsimp only
    by_cases hs : (raw.sentiment.getD "Neutral") = "Fear/Anxiety"
    · simp [hd, hne, hs]
    · simp [hd, hne, hs]

/-- Claim C6, witness: the theorem applied to the descriptive text
"may sunog" and a remote response labelled Fear/Anxiety. -/
theorem c6_descriptive_never_fear_witness :
    looks_descriptive (pyLower "may sunog".data) = true ∧
    has_emotion "may sunog".data = false ∧
    (rule_based_sentiment_analysis "may sunog" "English").sentiment = "Neutral" ∧
    (postProcessApi "may sunog" "English"
        ⟨some "Fear/Anxiety", some 80, none, none, none, none⟩).sentiment ≠ "Fear/Anxiety" :=
  ⟨by decide, by decide,
   (c6_descriptive_never_fear "may sunog" "English"
     ⟨some "Fear/Anxiety", some 80, none, none, none, none⟩ (by decide) (by decide)).1,
   (c6_descriptive_never_fear "may sunog" "English"
     ⟨some "Fear/Anxiety", some 80, none, none, none, none⟩ (by decide) (by decide)).2⟩

/-! ### Claim C7 -/

/-- Generic form of the extractor's winner selection: for any six
scores with the maximum among them, the source's two-branch selection
(singleton top list, otherwise the priority loop) equals the first
category of the fixed priority order whose score is the maximum. -/
theorem dd_select_generic (a b c d e f m : Nat)
    (hmem : m = a ∨ m = b ∨ m = c ∨ m = d ∨ m = e ∨ m = f) :
    (let pairs : List (String × Nat) :=
      [ ("Earthquake", a), ("Flood", b), ("Typhoon", c), ("Fire", d),
        ("Volcanic Eruptions", e), ("Landslide", f) ]
     let tops := (pairs.filter (fun p => p.2 == m)).map (fun p => p.1)
     if tops.length = 1 then tops.headD "UNKNOWN"
     else
       match dd_priority.find? (fun x => tops.contains x) with
       | some x => x
       | none => tops.headD "UNKNOWN") =
    (dd_priority.find?
      (fun x =>
        (((([ ("Earthquake", a), ("Flood", b), ("Typhoon", c), ("Fire", d),
              ("Volcanic Eruptions", e), ("Landslide", f) ] : List (String × Nat)).find?
            (fun p => p.1 == x)).map (fun p => p.2)).getD 0) == m)).getD "UNKNOWN" := by
  by_cases ha : a = m <;>
  by_cases hb : b = m <;>
  by_cases hc : c = m <;>
  by_cases hd : d = m <;>
  by_cases he : e = m <;>
  by_cases hf : f = m <;>
  simp_all [dd_priority]

/-- Claim C7: the disaster-type extractor agrees everywhere with the
specification-side selector: "Not Specified" on empty or
whitespace-only input, "UNKNOWN" when the maximum score is below 1
point, and otherwise the top-scoring category with ties broken by the
fixed priority order [Typhoon, Flood, Earthquake, Volcanic Eruptions,
Fire, Landslide]. -/
theorem c7_disaster_type_selection : ∀ (text : String),
    extract_disaster_type text = disaster_type_spec text := by
  intro text
  unfold extract_disaster_type disaster_type_spec dd_lookup
  by_cases hempty : (pyStrip text.data).isEmpty = true
  · simp [hempty]
  · simp only [hempty, Bool.false_eq_true, if_false]
    set tl := pyLower text.data with htl
    by_cases hlt : dd_max tl < 2
    · simp [hlt]
    · simp only [hlt, if_false]
      set a := dd_score_earthquake tl with ha
      set b := dd_score_flood tl with hb
      set c := dd_score_typhoon tl with hc
      set d := dd_score_fire tl with hd
      set e := dd_score_volcanic tl with he
      set f := dd_score_landslide tl with hf
      have hchain : dd_max tl = max a (max b (max c (max d (max e (max f 0))))) := by
        simp [dd_max, dd_pairs]
      have hmem : dd_max tl = a ∨ dd_max tl = b ∨ dd_max tl = c ∨ dd_max tl = d ∨
          dd_max tl = e ∨ dd_max tl = f := by
        rcases max_choice a (max b (max c (max d (max e (max f 0))))) with h1 | h1
        · exact Or.inl (hchain.trans h1)
        rcases max_choice b (max c (max d (max e (max f 0)))) with h2 | h2
        · exact Or.inr (Or.inl ((hchain.trans h1).trans h2))
        rcases max_choice c (max d (max e (max f 0))) with h3 | h3
        · exact Or.inr (Or.inr (Or.inl (((hchain.trans h1).trans h2).trans h3)))
        rcases max_choice d (max e (max f 0)) with h4 | h4
        · exact Or.inr (Or.inr (Or.inr (Or.inl
            ((((hchain.trans h1).trans h2).trans h3).trans h4))))
        rcases max_choice e (max f 0) with h5 | h5
        · exact Or.inr (Or.inr (Or.inr (Or.inr (Or.inl
            (((((hchain.trans h1).trans h2).trans h3).trans h4).trans h5)))))
        rcases max_choice f 0 with h6 | h6
        · exact Or.inr (Or.inr (Or.inr (Or.inr (Or.inr
            ((((((hchain.trans h1).trans h2).trans h3).trans h4).trans h5).trans h6)))))
        · exfalso
          have h0 : dd_max tl = 0 :=
            (((((hchain.trans h1).trans h2).trans h3).trans h4).trans h5).trans h6
          omega
      have hsel := dd_select_generic a b c d e f (dd_max tl) hmem
      simpa [dd_pairs] using hsel

/-! ### Claim C8 -/

/-- Claim C8, counterexample: "baha ncr" contains the gazetteer entry
"NCR" as a case-insensitive whole word, no earlier stage fires, and the
extractor returns the stored spelling "NCR" - not the Title-Case form
"Ncr" the claim asserts. -/
theorem c8_titlecase_counterexample :
    extract_location "baha ncr" = "NCR" ∧ pyTitle "NCR".data = "Ncr" ∧
    ("NCR" : String) ≠ "Ncr" := by
  refine ⟨by decide, by decide, by decide⟩

/-- Claim C8 (amended): when no earlier stage (all-caps templates,
emergency patterns, the `sa` pattern, the misspelling map) fires and the
whole-word stage finds an entry, the extractor returns the first
gazetteer entry (in list order) occurring as a case-insensitive whole
word, with its stored capitalization (Title-Case for most entries,
acronyms such as NCR kept all-caps); a whole-word occurrence of any
entry guarantees the stage fires; and `extract_location "hello world"`
is "UNKNOWN". -/
theorem c8_wholeword_stage :
    (∀ (text : String) (loc : String),
      text ≠ "" →
      stage_upper text.data = none →
      stage_emergency (pyLower text.data) = none →
      stage_sa (pyLower text.data) = none →
      stage_misspell (pyLower text.data) = none →
      stage_wholeword (pyLower text.data) = some loc →
      extract_location text = loc ∧ loc ∈ ph_locations ∧
        wholeWordIn (pyLower loc.data) (pyLower text.data) = true) ∧
    (∀ text : String,
      ph_locations.any (fun l => wholeWordIn (pyLower l.data) (pyLower text.data)) = true →
      (stage_wholeword (pyLower text.data)).isSome = true) ∧
    extract_location "hello world" = "UNKNOWN" := by
  refine ⟨?_, ?_, by decide⟩
  · intro text loc hne hup hem hsa hmis hww
    have hempty : text.isEmpty = false := by
      rw [Bool.eq_false_iff]
      intro h
      exact hne ((String.isEmpty_iff text).mp h)
    have hww' : ph_locations.find?
        (fun l => wholeWordIn (pyLower l.data) (pyLower text.data)) = some loc := hww
    have h3 := List.find?_some hww'
    refine ⟨?_, List.mem_of_find?_eq_some hww', h3⟩
    unfold extract_location
    rw [hempty]
    dsimp only
    rw [hup, hem, hsa, hmis, hww]
    rfl
  · intro text h
    unfold stage_wholeword
    rw [List.find?_isSome]
    exact List.any_eq_true.mp h

/-- Claim C8, witness: the whole-word stage applied to "baha cebu",
where no earlier stage fires and "Cebu" matches as a whole word. -/
theorem c8_wholeword_stage_witness :
    ("baha cebu" : String) ≠ "" ∧
    stage_upper "baha cebu".data = none ∧
    stage_emergency (pyLower "baha cebu".data) = none ∧
    stage_sa (pyLower "baha cebu".data) = none ∧
    stage_misspell (pyLower "baha cebu".data) = none ∧
    stage_wholeword (pyLower "baha cebu".data) = some "Cebu" ∧
    extract_location "baha cebu" = "Cebu" :=
  ⟨by decide, by decide, by decide, by decide, by decide, by decide,
   (c8_wholeword_stage.1 "baha cebu" "Cebu" (by decide) (by decide) (by decide)
     (by decide) (by decide) (by decide)).1⟩

/-! ### Claim C9 -/

/-- Claim C9: rows are processed in fixed batches of 30 - a 45-row CSV
gives batches [30, 15] with exactly one cooldown and a 20-row CSV gives
one batch with zero cooldowns - and in general the number of cooldowns
is one less than the number of batches when the row count exceeds 30
and zero otherwise, with no cooldown ever after the last batch. -/
theorem c9_batching_cooldown :
    batch_sizes 45 = [30, 15] ∧ cooldown_count 45 = 1 ∧
    batch_sizes 20 = [20] ∧ cooldown_count 20 = 0 ∧
    (∀ n, cooldown_count n = if 30 < n then (n + 29) / 30 - 1 else 0) ∧
    (∀ n, cooldown_after n (30 * ((n + 29) / 30 - 1)) = false) := by
  refine ⟨by decide, by decide, by decide, by decide, ?_, ?_⟩
  · intro n
    unfold cooldown_count batch_starts
    rw [← List.countP_eq_length_filter, List.countP_map]
    by_cases h30 : 30 < n
    · rw [if_pos h30]
      rw [show (n + 29) / 30 = ((n + 29) / 30 - 1) + 1 by omega, List.range_succ]
      rw [List.countP_append]
      have h1 : List.countP ((fun s => cooldown_after n s) ∘ fun k => 30 * k)
          (List.range ((n + 29) / 30 - 1)) = (List.range ((n + 29) / 30 - 1)).length := by
        rw [List.countP_eq_length]
        intro a ha
        rw [List.mem_range] at ha
        simp only [Function.comp_apply, cooldown_after]
        simp only [Bool.and_eq_true, decide_eq_true_eq]
        omega
      have h2 : List.countP ((fun s => cooldown_after n s) ∘ fun k => 30 * k)
          [ (n + 29) / 30 - 1 ] = 0 := by
        rw [List.countP_eq_zero]
        intro a ha
        rw [List.mem_singleton] at ha
        subst ha
        simp only [Function.comp_apply, cooldown_after]
        simp only [Bool.and_eq_true, decide_eq_true_eq, not_and]
        intro hlt
        omega
      rw [h1, h2, List.length_range]
      omega
    · rw [if_neg h30]
      rw [List.countP_eq_zero]
      intro a ha
      simp only [Function.comp_apply, cooldown_after]
      simp only [Bool.and_eq_true, decide_eq_true_eq, not_and]
      intro hlt
      omega
  · intro n
    simp only [cooldown_after, Bool.and_eq_false_iff, decide_eq_false_iff_not]
    left
    omega

/-! ### Claim C10 -/

/-- Claim C10: for every backend state and oracle bundle, an empty or
whitespace-only input makes `analyze_sentiment` return the fixed
sentinel (Neutral, 0.82, disaster type "UNKNOWN", location "UNKNOWN",
English) with the state unchanged and without consulting the
extractors, whereas `extract_disaster_type` itself answers
"Not Specified" - not "UNKNOWN" - on empty input. -/
theorem c10_empty_text_sentinel : ∀ (st : BackendState) (o : Oracles) (text : String),
    (pyStrip text.data).isEmpty = true →
    analyze_sentiment st o text =
      (AnalyzeOut.classification
        ⟨"Neutral", 82, "No text provided", "UNKNOWN", "UNKNOWN", "English"⟩, st) ∧
    extract_disaster_type "" = "Not Specified" ∧
    extract_disaster_type "" ≠ "UNKNOWN" := by
  intro st o text hempty
  refine ⟨?_, by decide, by decide⟩
  unfold analyze_sentiment
  simp [hempty]

/-- Claim C10, witness: the sentinel on the whitespace-only input
consisting of three blanks. -/
theorem c10_empty_text_sentinel_witness :
    (pyStrip "   ".data).isEmpty = true ∧
    analyze_sentiment emptyState5 oracleAllFail "   " =
      (AnalyzeOut.classification
        ⟨"Neutral", 82, "No text provided", "UNKNOWN", "UNKNOWN", "English"⟩, emptyState5) :=
  ⟨by decide, (c10_empty_text_sentinel emptyState5 oracleAllFail "   " (by decide)).1⟩
